import Mathlib

/-!
# Decoding pushed-down expressions (expression/distsql_builtin.go)

A shallow embedding of the wire-to-expression decoder: the type descriptor
translation `PbTypeToFieldType`, the signature dispatch `getSignatureByPB`,
the tree builder `PBToExpr` with its leaf converters, and `PBToExprs`; and of
the vectorised IF that expression/generator/control_vec.go generates from its
template `builtinIfVec`.

Go values are rendered as follows. A `[]byte` is the list of its bytes. A
pointer that may be nil is an `Option`. A function returning `(value, error)`
returns an `Outcome`, which also records a runtime panic. Library code whose
declaration is outside the source (the collation table, the `mysql` constants,
the float, decimal, value-list and time codecs) is taken as the fields of an
environment `Env`; the fixed-width integer codec is modelled from the
specification.
-/

namespace TinySQL

/-- A byte slice: the list of its bytes, each a number below 256. -/
abbrev Bytes := List Nat

/-- The node kinds `tipb.ExprType` that the decoder names; every other kind code is `unlisted`. -/
inductive ExprType where
  | ColumnRef | Null | Int64 | Uint64 | String | Bytes | Float32 | Float64
  | MysqlDecimal | MysqlDuration | MysqlTime | ScalarFunc | ValueList
  | unlisted (code : Int)
  deriving DecidableEq, Repr

/-- The signature codes `tipb.ScalarFuncSig` named by the cases of the switch in
`getSignatureByPB`, in source order; `unlisted c` is any code that is none of them. -/
inductive ScalarFuncSig where
  | LTInt | LTReal | LTDecimal | LTString | LTTime | LTDuration
  | LEInt | LEReal | LEDecimal | LEString | LETime | LEDuration
  | GTInt | GTReal | GTDecimal | GTString | GTTime | GTDuration
  | GEInt | GEReal | GEDecimal | GEString | GETime | GEDuration
  | EQInt | EQReal | EQDecimal | EQString | EQTime | EQDuration
  | NEInt | NEReal | NEDecimal | NEString | NETime | NEDuration
  | PlusReal | PlusDecimal | PlusInt | MinusReal | MinusDecimal | MinusInt
  | MultiplyReal | MultiplyDecimal | MultiplyInt | DivideReal | DivideDecimal | MultiplyIntUnsigned
  | LogicalAnd | LogicalOr | UnaryNotInt | UnaryNotDecimal | UnaryNotReal | UnaryMinusInt
  | UnaryMinusReal | UnaryMinusDecimal | DecimalIsNull | DurationIsNull | RealIsNull | StringIsNull
  | TimeIsNull | IntIsNull | GetVar | SetVar | InInt | InReal
  | InDecimal | InString | InTime | InDuration | IfNullInt | IfNullReal
  | IfNullDecimal | IfNullString | IfNullTime | IfNullDuration | IfInt | IfReal
  | IfDecimal | IfString | IfTime | IfDuration | Length | Strcmp
  | unlisted (code : Int)
  deriving Repr

/-- The concrete function struct types built by `getSignatureByPB`, one per case of its
switch; `builtinUnaryMinusDecimalSig` carries its extra boolean field. -/
inductive BuiltinSig where
  | builtinLTIntSig | builtinLTRealSig | builtinLTDecimalSig
  | builtinLTStringSig | builtinLTTimeSig | builtinLTDurationSig
  | builtinLEIntSig | builtinLERealSig | builtinLEDecimalSig
  | builtinLEStringSig | builtinLETimeSig | builtinLEDurationSig
  | builtinGTIntSig | builtinGTRealSig | builtinGTDecimalSig
  | builtinGTStringSig | builtinGTTimeSig | builtinGTDurationSig
  | builtinGEIntSig | builtinGERealSig | builtinGEDecimalSig
  | builtinGEStringSig | builtinGETimeSig | builtinGEDurationSig
  | builtinEQIntSig | builtinEQRealSig | builtinEQDecimalSig
  | builtinEQStringSig | builtinEQTimeSig | builtinEQDurationSig
  | builtinNEIntSig | builtinNERealSig | builtinNEDecimalSig
  | builtinNEStringSig | builtinNETimeSig | builtinNEDurationSig
  | builtinArithmeticPlusRealSig | builtinArithmeticPlusDecimalSig | builtinArithmeticPlusIntSig
  | builtinArithmeticMinusRealSig | builtinArithmeticMinusDecimalSig | builtinArithmeticMinusIntSig
  | builtinArithmeticMultiplyRealSig | builtinArithmeticMultiplyDecimalSig | builtinArithmeticMultiplyIntSig
  | builtinArithmeticDivideRealSig | builtinArithmeticDivideDecimalSig | builtinArithmeticMultiplyIntUnsignedSig
  | builtinLogicAndSig | builtinLogicOrSig | builtinUnaryNotIntSig
  | builtinUnaryNotDecimalSig | builtinUnaryNotRealSig | builtinUnaryMinusIntSig
  | builtinUnaryMinusRealSig | builtinUnaryMinusDecimalSig (constantArgOverflow : Bool) | builtinDecimalIsNullSig
  | builtinDurationIsNullSig | builtinRealIsNullSig | builtinStringIsNullSig
  | builtinTimeIsNullSig | builtinIntIsNullSig | builtinGetVarSig
  | builtinSetVarSig | builtinInIntSig | builtinInRealSig
  | builtinInDecimalSig | builtinInStringSig | builtinInTimeSig
  | builtinInDurationSig | builtinIfNullIntSig | builtinIfNullRealSig
  | builtinIfNullDecimalSig | builtinIfNullStringSig | builtinIfNullTimeSig
  | builtinIfNullDurationSig | builtinIfIntSig | builtinIfRealSig
  | builtinIfDecimalSig | builtinIfStringSig | builtinIfTimeSig
  | builtinIfDurationSig | builtinLengthSig | builtinStrcmpSig
  deriving Repr

/-- The Go type name of a function struct, as `%T` prints it for a pointer to it. -/
def BuiltinSig.typeName : BuiltinSig → String
  | .builtinLTIntSig => "*expression.builtinLTIntSig"
  | .builtinLTRealSig => "*expression.builtinLTRealSig"
  | .builtinLTDecimalSig => "*expression.builtinLTDecimalSig"
  | .builtinLTStringSig => "*expression.builtinLTStringSig"
  | .builtinLTTimeSig => "*expression.builtinLTTimeSig"
  | .builtinLTDurationSig => "*expression.builtinLTDurationSig"
  | .builtinLEIntSig => "*expression.builtinLEIntSig"
  | .builtinLERealSig => "*expression.builtinLERealSig"
  | .builtinLEDecimalSig => "*expression.builtinLEDecimalSig"
  | .builtinLEStringSig => "*expression.builtinLEStringSig"
  | .builtinLETimeSig => "*expression.builtinLETimeSig"
  | .builtinLEDurationSig => "*expression.builtinLEDurationSig"
  | .builtinGTIntSig => "*expression.builtinGTIntSig"
  | .builtinGTRealSig => "*expression.builtinGTRealSig"
  | .builtinGTDecimalSig => "*expression.builtinGTDecimalSig"
  | .builtinGTStringSig => "*expression.builtinGTStringSig"
  | .builtinGTTimeSig => "*expression.builtinGTTimeSig"
  | .builtinGTDurationSig => "*expression.builtinGTDurationSig"
  | .builtinGEIntSig => "*expression.builtinGEIntSig"
  | .builtinGERealSig => "*expression.builtinGERealSig"
  | .builtinGEDecimalSig => "*expression.builtinGEDecimalSig"
  | .builtinGEStringSig => "*expression.builtinGEStringSig"
  | .builtinGETimeSig => "*expression.builtinGETimeSig"
  | .builtinGEDurationSig => "*expression.builtinGEDurationSig"
  | .builtinEQIntSig => "*expression.builtinEQIntSig"
  | .builtinEQRealSig => "*expression.builtinEQRealSig"
  | .builtinEQDecimalSig => "*expression.builtinEQDecimalSig"
  | .builtinEQStringSig => "*expression.builtinEQStringSig"
  | .builtinEQTimeSig => "*expression.builtinEQTimeSig"
  | .builtinEQDurationSig => "*expression.builtinEQDurationSig"
  | .builtinNEIntSig => "*expression.builtinNEIntSig"
  | .builtinNERealSig => "*expression.builtinNERealSig"
  | .builtinNEDecimalSig => "*expression.builtinNEDecimalSig"
  | .builtinNEStringSig => "*expression.builtinNEStringSig"
  | .builtinNETimeSig => "*expression.builtinNETimeSig"
  | .builtinNEDurationSig => "*expression.builtinNEDurationSig"
  | .builtinArithmeticPlusRealSig => "*expression.builtinArithmeticPlusRealSig"
  | .builtinArithmeticPlusDecimalSig => "*expression.builtinArithmeticPlusDecimalSig"
  | .builtinArithmeticPlusIntSig => "*expression.builtinArithmeticPlusIntSig"
  | .builtinArithmeticMinusRealSig => "*expression.builtinArithmeticMinusRealSig"
  | .builtinArithmeticMinusDecimalSig => "*expression.builtinArithmeticMinusDecimalSig"
  | .builtinArithmeticMinusIntSig => "*expression.builtinArithmeticMinusIntSig"
  | .builtinArithmeticMultiplyRealSig => "*expression.builtinArithmeticMultiplyRealSig"
  | .builtinArithmeticMultiplyDecimalSig => "*expression.builtinArithmeticMultiplyDecimalSig"
  | .builtinArithmeticMultiplyIntSig => "*expression.builtinArithmeticMultiplyIntSig"
  | .builtinArithmeticDivideRealSig => "*expression.builtinArithmeticDivideRealSig"
  | .builtinArithmeticDivideDecimalSig => "*expression.builtinArithmeticDivideDecimalSig"
  | .builtinArithmeticMultiplyIntUnsignedSig => "*expression.builtinArithmeticMultiplyIntUnsignedSig"
  | .builtinLogicAndSig => "*expression.builtinLogicAndSig"
  | .builtinLogicOrSig => "*expression.builtinLogicOrSig"
  | .builtinUnaryNotIntSig => "*expression.builtinUnaryNotIntSig"
  | .builtinUnaryNotDecimalSig => "*expression.builtinUnaryNotDecimalSig"
  | .builtinUnaryNotRealSig => "*expression.builtinUnaryNotRealSig"
  | .builtinUnaryMinusIntSig => "*expression.builtinUnaryMinusIntSig"
  | .builtinUnaryMinusRealSig => "*expression.builtinUnaryMinusRealSig"
  | .builtinUnaryMinusDecimalSig _ => "*expression.builtinUnaryMinusDecimalSig"
  | .builtinDecimalIsNullSig => "*expression.builtinDecimalIsNullSig"
  | .builtinDurationIsNullSig => "*expression.builtinDurationIsNullSig"
  | .builtinRealIsNullSig => "*expression.builtinRealIsNullSig"
  | .builtinStringIsNullSig => "*expression.builtinStringIsNullSig"
  | .builtinTimeIsNullSig => "*expression.builtinTimeIsNullSig"
  | .builtinIntIsNullSig => "*expression.builtinIntIsNullSig"
  | .builtinGetVarSig => "*expression.builtinGetVarSig"
  | .builtinSetVarSig => "*expression.builtinSetVarSig"
  | .builtinInIntSig => "*expression.builtinInIntSig"
  | .builtinInRealSig => "*expression.builtinInRealSig"
  | .builtinInDecimalSig => "*expression.builtinInDecimalSig"
  | .builtinInStringSig => "*expression.builtinInStringSig"
  | .builtinInTimeSig => "*expression.builtinInTimeSig"
  | .builtinInDurationSig => "*expression.builtinInDurationSig"
  | .builtinIfNullIntSig => "*expression.builtinIfNullIntSig"
  | .builtinIfNullRealSig => "*expression.builtinIfNullRealSig"
  | .builtinIfNullDecimalSig => "*expression.builtinIfNullDecimalSig"
  | .builtinIfNullStringSig => "*expression.builtinIfNullStringSig"
  | .builtinIfNullTimeSig => "*expression.builtinIfNullTimeSig"
  | .builtinIfNullDurationSig => "*expression.builtinIfNullDurationSig"
  | .builtinIfIntSig => "*expression.builtinIfIntSig"
  | .builtinIfRealSig => "*expression.builtinIfRealSig"
  | .builtinIfDecimalSig => "*expression.builtinIfDecimalSig"
  | .builtinIfStringSig => "*expression.builtinIfStringSig"
  | .builtinIfTimeSig => "*expression.builtinIfTimeSig"
  | .builtinIfDurationSig => "*expression.builtinIfDurationSig"
  | .builtinLengthSig => "*expression.builtinLengthSig"
  | .builtinStrcmpSig => "*expression.builtinStrcmpSig"

/-- The wire type descriptor `tipb.FieldType`; its integer fields are kept as
unbounded integers and every Go conversion applied to them is made explicit. -/
structure PbFieldType where
  Tp : Int
  Flag : Nat
  Flen : Int
  Decimal : Int
  Charset : String
  Collate : Int
  deriving DecidableEq, Repr

/-- The internal type descriptor `types.FieldType`, with the fields the decoder sets. -/
structure FieldType where
  Tp : Nat
  Flag : Nat
  Flen : Int
  Decimal : Int
  Charset : String
  Collate : String
  deriving DecidableEq, Repr

/-- A `*time.Location`, compared by identity as the source does: the distinguished
`time.UTC`, or any other location. -/
inductive Location where
  | UTC
  | other (id : Nat)
  deriving DecidableEq, Repr

/-- The statement context, of which the decoder reads the time zone only. -/
structure StatementContext where
  TimeZone : Location
  deriving DecidableEq, Repr

/-- The session context made by `mock.NewContext()` with its statement context set. -/
structure Context where
  StmtCtx : StatementContext
  deriving DecidableEq, Repr

/-- Modelled from the spec: `types.MyDecimal` is declared outside the source; a
fixed-point decimal is carried as its unscaled integer value and its scale. -/
structure MyDecimal where
  unscaled : Int
  scale : Nat
  deriving DecidableEq, Repr

/-- Modelled from the spec: the calendar fields of a `types.Time`, whose declaration is
outside the source. -/
structure CoreTime where
  year : Nat
  month : Nat
  day : Nat
  hour : Nat
  minute : Nat
  second : Nat
  microsecond : Nat
  deriving DecidableEq, Repr

/-- A `types.Time`: calendar fields, the type code and the fractional-seconds precision. -/
structure Time where
  core : CoreTime
  Type_ : Nat
  Fsp : Int
  deriving DecidableEq, Repr

/-- A `types.Datum`, by kind. A float is carried as its 64-bit pattern. A decimal datum
holds the (possibly nil) decimal pointer with the length and the fraction set on it. -/
inductive Datum where
  | Null
  | Int64 (i : Int)
  | Uint64 (u : Nat)
  | Float32 (f : Nat)
  | Float64 (f : Nat)
  | String (b : Bytes)
  | Bytes (b : Bytes)
  | MysqlDecimal (dec : Option MyDecimal) (length : Int) (frac : Int)
  | MysqlDuration (Duration : Int) (Fsp : Int)
  | MysqlTime (t : Time)
  deriving DecidableEq, Repr

/-- The errors the decoder returns, by the call that builds them. -/
inductive Error where
  /-- The error of `errFunctionNotExists.GenWithStackByArgs(kind, sigCode)`. -/
  | FunctionNotExists (kind : String) (sigCode : ScalarFuncSig)
  /-- The error of `errors.Errorf("invalid int % x", val)`. -/
  | invalidInt (val : Bytes)
  /-- The error of `errors.Errorf("invalid uint % x", val)`. -/
  | invalidUint (val : Bytes)
  /-- The error of `errors.Errorf("invalid float % x", val)`. -/
  | invalidFloat (val : Bytes)
  /-- The error of `errors.Errorf("invalid decimal % x", val)`. -/
  | invalidDecimal (val : Bytes)
  /-- The error of `errors.Errorf("invalid duration %d", i)`. -/
  | invalidDuration (i : Int)
  /-- The error of the fixed-width integer codec on a short payload. -/
  | insufficientBytes
  /-- An error raised by library code of the environment. -/
  | library (msg : String)
  deriving Repr

/-- The runtime panics the decoder can raise. -/
inductive Panic where
  /-- The panic of `panic(msg)`. -/
  | message (msg : String)
  /-- Indexing a slice of length `len` at `index` outside it. -/
  | indexOutOfRange (index : Int) (len : Nat)
  /-- Reading a field through a nil pointer. -/
  | nilDereference
  deriving DecidableEq, Repr

/-- The result of a Go function returning `(value, error)`: a value with a nil error,
an error with no value, or a panic that unwinds the call. -/
inductive Outcome (α : Type) where
  | ok (val : α)
  | error (err : Error)
  | panic (p : Panic)
  deriving Repr

mutual
/-- The decoded expressions: `*Column`, `*Constant` and `*ScalarFunction`. -/
inductive Expression where
  | Column (Index : Int) (RetType : Option FieldType)
  | Constant (Value : Datum) (RetType : Option FieldType)
  | ScalarFunction (FuncName : String) (Function : builtinFunc) (RetType : Option FieldType)
/-- A function struct: its concrete type and the embedded base record. -/
inductive builtinFunc where
  | mk (sig : BuiltinSig) (base : baseBuiltinFunc)
/-- Modelled from the spec: `baseBuiltinFunc` is declared outside the source; the shared
base record owns the context, the bound arguments and the result type, and has the
signature code attached to it. -/
inductive baseBuiltinFunc where
  | mk (args : List Expression) (ctx : Context) (tp : Option FieldType) (pbCode : ScalarFuncSig)
end

/-- The wire node `tipb.Expr`. -/
inductive Expr where
  | mk (Tp : ExprType) (Val : Bytes) (Children : List Expr) (Sig : ScalarFuncSig)
      (FieldType : Option PbFieldType)

/-- Library code declared outside the source, taken as parameters. -/
structure Env where
  /-- The table `mysql.Collations`, a map from collation identifier to name. -/
  Collations : Nat → Option String
  TypeNull : Nat
  TypeLonglong : Nat
  TypeString : Nat
  TypeVarString : Nat
  TypeDouble : Nat
  TypeNewDecimal : Nat
  TypeDuration : Nat
  TypeTimestamp : Nat
  UnsignedFlag : Nat
  MaxFsp : Int
  /-- The constructor `types.NewFieldType` of a descriptor from a type code. -/
  NewFieldType : Nat → FieldType
  /-- The decoder `codec.DecodeFloat`: the rest, the decoded float and the error. -/
  DecodeFloat : Bytes → Bytes × Nat × Option Error
  /-- The conversion `float32(f)` of a 64-bit float. -/
  float32 : Nat → Nat
  /-- The decoder `codec.DecodeDecimal`: the rest, the decimal, its precision, its fraction and the error. -/
  DecodeDecimal : Bytes → Bytes × Option MyDecimal × Int × Int × Option Error
  /-- The decoder `codec.Decode`: the decoded values and the error. -/
  Decode : Bytes → Nat → List Datum × Option Error
  /-- The method `(*types.Time).FromPackedUint`: the receiver after the call and the error. -/
  FromPackedUint : Time → Nat → Time × Option Error
  /-- The method `(*types.Time).ConvertTimeZone`: the receiver after the call and the error. -/
  ConvertTimeZone : Time → Location → Location → Time × Option Error

/-! ## Conversions and accessors -/

/-- The Go conversions `byte(x)` and `uint8(x)` of a signed integer: its low eight bits. -/
def byte (x : Int) : Nat := (x % 256).toNat

/-- The Go conversion `uint(x)` of an unsigned integer on a 64-bit platform. -/
def uint (x : Nat) : Nat := x % 2 ^ 64

/-- The Go conversion `int(x)` of a signed integer on a 64-bit platform. -/
def int (x : Int) : Int := (x + 2 ^ 63) % 2 ^ 64 - 2 ^ 63

/-- The Go conversion `int8(x)`. -/
def int8 (x : Int) : Int := (x + 128) % 256 - 128

/-- Indexing a Go map of strings: the entry of the key, or the zero value `""` of the
element type when the key is absent. -/
def mapIndex (m : Nat → Option String) (key : Nat) : String :=
  match m key with
  | some v => v
  | none => ""

def Expr.Tp : Expr → ExprType
  | .mk Tp _ _ _ _ => Tp

def Expr.Val : Expr → Bytes
  | .mk _ Val _ _ _ => Val

def Expr.Children : Expr → List Expr
  | .mk _ _ Children _ _ => Children

def Expr.Sig : Expr → ScalarFuncSig
  | .mk _ _ _ Sig _ => Sig

def Expr.FieldType : Expr → Option PbFieldType
  | .mk _ _ _ _ FieldType => FieldType

def baseBuiltinFunc.args : baseBuiltinFunc → List Expression
  | .mk args _ _ _ => args

def baseBuiltinFunc.ctx : baseBuiltinFunc → Context
  | .mk _ ctx _ _ => ctx

def baseBuiltinFunc.tp : baseBuiltinFunc → Option FieldType
  | .mk _ _ tp _ => tp

def baseBuiltinFunc.pbCode : baseBuiltinFunc → ScalarFuncSig
  | .mk _ _ _ pbCode => pbCode

def builtinFunc.sig : builtinFunc → BuiltinSig
  | .mk sig _ => sig

def builtinFunc.base : builtinFunc → baseBuiltinFunc
  | .mk _ base => base

/-- Modelled from the spec: `newBaseBuiltinFunc` is outside the source; it builds the
shared base record owning the context and the bound arguments, with no result type and
the zero signature code yet. -/
def newBaseBuiltinFunc (ctx : Context) (args : List Expression) : baseBuiltinFunc :=
  .mk args ctx none (.unlisted 0)

/-- The assignment `base.tp = fieldTp`. -/
def baseBuiltinFunc.setTp (base : baseBuiltinFunc) (tp : Option FieldType) : baseBuiltinFunc :=
  .mk base.args base.ctx tp base.pbCode

/-- Modelled from the spec: `setPbCode` is outside the source; it attaches the signature
code to the base record. -/
def builtinFunc.setPbCode (f : builtinFunc) (c : ScalarFuncSig) : builtinFunc :=
  .mk f.sig (.mk f.base.args f.base.ctx f.base.tp c)

/-- Modelled from the spec: `PbCode` is outside the source; it reads the signature code
attached to the base record. -/
def builtinFunc.PbCode (f : builtinFunc) : ScalarFuncSig := f.base.pbCode

/-- Modelled from the spec: `getRetTp` is outside the source; it reads the result type
of the base record. -/
def builtinFunc.getRetTp (f : builtinFunc) : Option FieldType := f.base.tp

/-- Modelled from the spec: `getArgs` is outside the source; it reads the bound
arguments of the base record. -/
def builtinFunc.getArgs (f : builtinFunc) : List Expression := f.base.args

/-- Modelled from the spec: `types.NewDatum` is outside the source; a boolean is stored
as the integer 1 or 0. -/
def NewDatum (b : Bool) : Datum := .Int64 (if b then 1 else 0)

/-- The library call `errors.Trace`: it hands back the error it is given, which already
records where it was raised. -/
def Trace (err : Error) : Error := err

/-! ## The fixed-width integer codec -/

/-- The number a byte string denotes in big-endian order. -/
def bigEndian (b : Bytes) : Nat := b.foldl (fun acc x => acc * 256 + x % 256) 0

/-- Modelled from the spec: `codec.EncodeUint` is outside the source; the fixed-width
ordered encoding of an unsigned 64-bit integer is its eight bytes, most significant
first. -/
def EncodeUint (u : Nat) : Bytes :=
  [u / 256 ^ 7 % 256, u / 256 ^ 6 % 256, u / 256 ^ 5 % 256, u / 256 ^ 4 % 256,
   u / 256 ^ 3 % 256, u / 256 ^ 2 % 256, u / 256 % 256, u % 256]

/-- Modelled from the spec: `codec.EncodeInt` is outside the source; a signed 64-bit
integer is shifted by `2 ^ 63`, so that byte order is integer order, and then encoded
as the unsigned integer. -/
def EncodeInt (x : Int) : Bytes := EncodeUint (x + 2 ^ 63).toNat

/-- Modelled from the spec: `codec.DecodeUint` is outside the source; it rejects a
payload shorter than the eight bytes of the encoding and otherwise returns the rest of
the payload and the integer of the first eight bytes. -/
def DecodeUint (b : Bytes) : Bytes × Nat × Option Error :=
  if b.length < 8 then ([], 0, some .insufficientBytes)
  else (b.drop 8, bigEndian (b.take 8), none)

/-- Modelled from the spec: `codec.DecodeInt` is outside the source; it rejects a payload
shorter than the eight bytes of the encoding and otherwise returns the rest of the
payload and the signed integer of the first eight bytes. -/
def DecodeInt (b : Bytes) : Bytes × Int × Option Error :=
  if b.length < 8 then ([], 0, some .insufficientBytes)
  else (b.drop 8, (bigEndian (b.take 8) : Int) - 2 ^ 63, none)

/-! ## The decoder -/

/-- PbTypeToFieldType converts tipb.FieldType to FieldType (the pointer it is given is
dereferenced by the caller). -/
def PbTypeToFieldType (E : Env) (tp : PbFieldType) : FieldType :=
  { Tp := byte tp.Tp
    Flag := uint tp.Flag
    Flen := int tp.Flen
    Decimal := int tp.Decimal
    Charset := tp.Charset
    Collate := mapIndex E.Collations (byte tp.Collate) }

/-- The dispatch of a signature code to its function struct. A nil type descriptor
panics when `PbTypeToFieldType` reads it, before the switch is reached. -/
def getSignatureByPB (E : Env) (ctx : Context) (sigCode : ScalarFuncSig)
    (tp : Option PbFieldType) (args : List Expression) : Outcome builtinFunc :=
  match tp with
  | none => .panic .nilDereference
  | some tp =>
    let fieldTp := PbTypeToFieldType E tp
    let base := newBaseBuiltinFunc ctx args
    let base := base.setTp (some fieldTp)
    let f : Option builtinFunc :=
      match sigCode with
      | .LTInt => some (.mk (.builtinLTIntSig) base)
      | .LTReal => some (.mk (.builtinLTRealSig) base)
      | .LTDecimal => some (.mk (.builtinLTDecimalSig) base)
      | .LTString => some (.mk (.builtinLTStringSig) base)
      | .LTTime => some (.mk (.builtinLTTimeSig) base)
      | .LTDuration => some (.mk (.builtinLTDurationSig) base)
      | .LEInt => some (.mk (.builtinLEIntSig) base)
      | .LEReal => some (.mk (.builtinLERealSig) base)
      | .LEDecimal => some (.mk (.builtinLEDecimalSig) base)
      | .LEString => some (.mk (.builtinLEStringSig) base)
      | .LETime => some (.mk (.builtinLETimeSig) base)
      | .LEDuration => some (.mk (.builtinLEDurationSig) base)
      | .GTInt => some (.mk (.builtinGTIntSig) base)
      | .GTReal => some (.mk (.builtinGTRealSig) base)
      | .GTDecimal => some (.mk (.builtinGTDecimalSig) base)
      | .GTString => some (.mk (.builtinGTStringSig) base)
      | .GTTime => some (.mk (.builtinGTTimeSig) base)
      | .GTDuration => some (.mk (.builtinGTDurationSig) base)
      | .GEInt => some (.mk (.builtinGEIntSig) base)
      | .GEReal => some (.mk (.builtinGERealSig) base)
      | .GEDecimal => some (.mk (.builtinGEDecimalSig) base)
      | .GEString => some (.mk (.builtinGEStringSig) base)
      | .GETime => some (.mk (.builtinGETimeSig) base)
      | .GEDuration => some (.mk (.builtinGEDurationSig) base)
      | .EQInt => some (.mk (.builtinEQIntSig) base)
      | .EQReal => some (.mk (.builtinEQRealSig) base)
      | .EQDecimal => some (.mk (.builtinEQDecimalSig) base)
      | .EQString => some (.mk (.builtinEQStringSig) base)
      | .EQTime => some (.mk (.builtinEQTimeSig) base)
      | .EQDuration => some (.mk (.builtinEQDurationSig) base)
      | .NEInt => some (.mk (.builtinNEIntSig) base)
      | .NEReal => some (.mk (.builtinNERealSig) base)
      | .NEDecimal => some (.mk (.builtinNEDecimalSig) base)
      | .NEString => some (.mk (.builtinNEStringSig) base)
      | .NETime => some (.mk (.builtinNETimeSig) base)
      | .NEDuration => some (.mk (.builtinNEDurationSig) base)
      | .PlusReal => some (.mk (.builtinArithmeticPlusRealSig) base)
      | .PlusDecimal => some (.mk (.builtinArithmeticPlusDecimalSig) base)
      | .PlusInt => some (.mk (.builtinArithmeticPlusIntSig) base)
      | .MinusReal => some (.mk (.builtinArithmeticMinusRealSig) base)
      | .MinusDecimal => some (.mk (.builtinArithmeticMinusDecimalSig) base)
      | .MinusInt => some (.mk (.builtinArithmeticMinusIntSig) base)
      | .MultiplyReal => some (.mk (.builtinArithmeticMultiplyRealSig) base)
      | .MultiplyDecimal => some (.mk (.builtinArithmeticMultiplyDecimalSig) base)
      | .MultiplyInt => some (.mk (.builtinArithmeticMultiplyIntSig) base)
      | .DivideReal => some (.mk (.builtinArithmeticDivideRealSig) base)
      | .DivideDecimal => some (.mk (.builtinArithmeticDivideDecimalSig) base)
      | .MultiplyIntUnsigned => some (.mk (.builtinArithmeticMultiplyIntUnsignedSig) base)
      | .LogicalAnd => some (.mk (.builtinLogicAndSig) base)
      | .LogicalOr => some (.mk (.builtinLogicOrSig) base)
      | .UnaryNotInt => some (.mk (.builtinUnaryNotIntSig) base)
      | .UnaryNotDecimal => some (.mk (.builtinUnaryNotDecimalSig) base)
      | .UnaryNotReal => some (.mk (.builtinUnaryNotRealSig) base)
      | .UnaryMinusInt => some (.mk (.builtinUnaryMinusIntSig) base)
      | .UnaryMinusReal => some (.mk (.builtinUnaryMinusRealSig) base)
      | .UnaryMinusDecimal => some (.mk (.builtinUnaryMinusDecimalSig false) base)
      | .DecimalIsNull => some (.mk (.builtinDecimalIsNullSig) base)
      | .DurationIsNull => some (.mk (.builtinDurationIsNullSig) base)
      | .RealIsNull => some (.mk (.builtinRealIsNullSig) base)
      | .StringIsNull => some (.mk (.builtinStringIsNullSig) base)
      | .TimeIsNull => some (.mk (.builtinTimeIsNullSig) base)
      | .IntIsNull => some (.mk (.builtinIntIsNullSig) base)
      | .GetVar => some (.mk (.builtinGetVarSig) base)
      | .SetVar => some (.mk (.builtinSetVarSig) base)
      | .InInt => some (.mk (.builtinInIntSig) base)
      | .InReal => some (.mk (.builtinInRealSig) base)
      | .InDecimal => some (.mk (.builtinInDecimalSig) base)
      | .InString => some (.mk (.builtinInStringSig) base)
      | .InTime => some (.mk (.builtinInTimeSig) base)
      | .InDuration => some (.mk (.builtinInDurationSig) base)
      | .IfNullInt => some (.mk (.builtinIfNullIntSig) base)
      | .IfNullReal => some (.mk (.builtinIfNullRealSig) base)
      | .IfNullDecimal => some (.mk (.builtinIfNullDecimalSig) base)
      | .IfNullString => some (.mk (.builtinIfNullStringSig) base)
      | .IfNullTime => some (.mk (.builtinIfNullTimeSig) base)
      | .IfNullDuration => some (.mk (.builtinIfNullDurationSig) base)
      | .IfInt => some (.mk (.builtinIfIntSig) base)
      | .IfReal => some (.mk (.builtinIfRealSig) base)
      | .IfDecimal => some (.mk (.builtinIfDecimalSig) base)
      | .IfString => some (.mk (.builtinIfStringSig) base)
      | .IfTime => some (.mk (.builtinIfTimeSig) base)
      | .IfDuration => some (.mk (.builtinIfDurationSig) base)
      | .Length => some (.mk (.builtinLengthSig) base)
      | .Strcmp => some (.mk (.builtinStrcmpSig) base)
      | .unlisted _ => none
    match f with
    | none => .error (.FunctionNotExists "FUNCTION" sigCode)
    | some f => .ok (f.setPbCode sigCode)

def newDistSQLFunctionBySig (E : Env) (sc : StatementContext) (sigCode : ScalarFuncSig)
    (tp : Option PbFieldType) (args : List Expression) : Outcome Expression :=
  let ctx : Context := { StmtCtx := sc }
  match getSignatureByPB E ctx sigCode tp args with
  | .error err => .error err
  | .panic p => .panic p
  | .ok f => .ok (.ScalarFunction ("sig_" ++ f.sig.typeName) f f.getRetTp)

def convertTime (E : Env) (data : Bytes) (ftPB : Option PbFieldType) (tz : Location) :
    Outcome Expression :=
  match ftPB with
  | none => .panic .nilDereference
  | some ftPB =>
    let ft := PbTypeToFieldType E ftPB
    match DecodeUint data with
    | (_, _, some err) => .error err
    | (_, v, none) =>
      let t : Time := { core := ⟨0, 0, 0, 0, 0, 0, 0⟩, Type_ := ft.Tp, Fsp := int8 ft.Decimal }
      match E.FromPackedUint t v with
      | (_, some err) => .error err
      | (t, none) =>
        if ft.Tp = E.TypeTimestamp ∧ tz ≠ Location.UTC then
          match E.ConvertTimeZone t Location.UTC tz with
          | (_, some err) => .error err
          | (t, none) => .ok (.Constant (.MysqlTime t) (some ft))
        else .ok (.Constant (.MysqlTime t) (some ft))

def decodeValueList (E : Env) (data : Bytes) : Outcome (List Expression) :=
  if data.length = 0 then .ok []
  else
    match E.Decode data 1 with
    | (_, some err) => .error err
    | (list, none) =>
      .ok (list.foldl (fun result value => result ++ [Expression.Constant value none]) [])

def convertInt (E : Env) (val : Bytes) : Outcome Expression :=
  match DecodeInt val with
  | (_, _, some _) => .error (.invalidInt val)
  | (_, i, none) => .ok (.Constant (.Int64 i) (some (E.NewFieldType E.TypeLonglong)))

def convertUint (E : Env) (val : Bytes) : Outcome Expression :=
  match DecodeUint val with
  | (_, _, some _) => .error (.invalidUint val)
  | (_, u, none) =>
    .ok (.Constant (.Uint64 u)
      (some { Tp := E.TypeLonglong, Flag := E.UnsignedFlag, Flen := 0, Decimal := 0,
              Charset := "", Collate := "" }))

def convertString (E : Env) (val : Bytes) : Outcome Expression :=
  .ok (.Constant (.String val) (some (E.NewFieldType E.TypeVarString)))

def convertFloat (E : Env) (val : Bytes) (f32 : Bool) : Outcome Expression :=
  match E.DecodeFloat val with
  | (_, _, some _) => .error (.invalidFloat val)
  | (_, f, none) =>
    let d : Datum := if f32 then .Float32 (E.float32 f) else .Float64 f
    .ok (.Constant d (some (E.NewFieldType E.TypeDouble)))

def convertDecimal (E : Env) (val : Bytes) : Outcome Expression :=
  match E.DecodeDecimal val with
  | (_, dec, precision, frac, err) =>
    let d : Datum := .MysqlDecimal dec precision frac
    match err with
    | some _ => .error (.invalidDecimal val)
    | none => .ok (.Constant d (some (E.NewFieldType E.TypeNewDecimal)))

def convertDuration (E : Env) (val : Bytes) : Outcome Expression :=
  match DecodeInt val with
  | (_, i, some _) => .error (.invalidDuration i)
  | (_, i, none) =>
    .ok (.Constant (.MysqlDuration i E.MaxFsp) (some (E.NewFieldType E.TypeDuration)))

/-- How the loop over the children of a function node ends: with the assembled
arguments, or by a `return` from inside the loop. -/
inductive LoopResult where
  | args (args : List Expression)
  | returned (o : Outcome Expression)

mutual
/-- PBToExpr converts pb structure to expression. -/
def PBToExpr (E : Env) (expr : Expr) (tps : List (Option FieldType))
    (sc : StatementContext) : Outcome Expression :=
  match expr with
  | .mk .ColumnRef Val _ _ _ =>
    match DecodeInt Val with
    | (_, _, some err) => .error err
    | (_, offset, none) =>
      match (if 0 ≤ offset then tps[offset.toNat]? else none) with
      | some t => .ok (.Column (int offset) t)
      | none => .panic (.indexOutOfRange offset tps.length)
  | .mk .Null _ _ _ _ => .ok (.Constant .Null (some (E.NewFieldType E.TypeNull)))
  | .mk .Int64 Val _ _ _ => convertInt E Val
  | .mk .Uint64 Val _ _ _ => convertUint E Val
  | .mk .String Val _ _ _ => convertString E Val
  | .mk .Bytes Val _ _ _ => .ok (.Constant (.Bytes Val) (some (E.NewFieldType E.TypeString)))
  | .mk .Float32 Val _ _ _ => convertFloat E Val true
  | .mk .Float64 Val _ _ _ => convertFloat E Val false
  | .mk .MysqlDecimal Val _ _ _ => convertDecimal E Val
  | .mk .MysqlDuration Val _ _ _ => convertDuration E Val
  | .mk .MysqlTime Val _ _ FieldType => convertTime E Val FieldType sc.TimeZone
  | .mk Tp _ Children Sig FieldType =>
    if Tp ≠ ExprType.ScalarFunc then .panic (.message "should be a tipb.ExprType_ScalarFunc")
    else
      match PBToExpr.loop E Children tps sc [] with
      | .returned o => o
      | .args args => newDistSQLFunctionBySig E sc Sig FieldType args
/-- The loop of `PBToExpr` over the children still to visit, with the arguments built
so far. -/
def PBToExpr.loop (E : Env) (children : List Expr) (tps : List (Option FieldType))
    (sc : StatementContext) (args : List Expression) : LoopResult :=
  match children with
  | [] => .args args
  | child :: rest =>
    if child.Tp = ExprType.ValueList then
      match decodeValueList E child.Val with
      | .error err => .returned (.error err)
      | .panic p => .returned (.panic p)
      | .ok results =>
        if results.length = 0 then
          .returned (.ok (.Constant (NewDatum false) (some (E.NewFieldType E.TypeLonglong))))
        else PBToExpr.loop E rest tps sc (args ++ results)
    else
      match PBToExpr E child tps sc with
      | .error err => .returned (.error err)
      | .panic p => .returned (.panic p)
      | .ok arg => PBToExpr.loop E rest tps sc (args ++ [arg])
end

/-- The loop of `PBToExprs` over the roots still to visit, with the expressions built
so far. Its guard `e == nil` has no counterpart here: an outcome `ok` of `PBToExpr`
always carries an expression. -/
def PBToExprs.loop (E : Env) (pbExprs : List Expr) (fieldTps : List (Option FieldType))
    (sc : StatementContext) (exprs : List Expression) : Outcome (List Expression) :=
  match pbExprs with
  | [] => .ok exprs
  | expr :: rest =>
    match PBToExpr E expr fieldTps sc with
    | .error err => .error (Trace err)
    | .panic p => .panic p
    | .ok e => PBToExprs.loop E rest fieldTps sc (exprs ++ [e])

/-- PBToExprs converts pb structures to expressions. -/
def PBToExprs (E : Env) (pbExprs : List Expr) (fieldTps : List (Option FieldType))
    (sc : StatementContext) : Outcome (List Expression) :=
  PBToExprs.loop E pbExprs fieldTps sc []

/-! ## Specification-side definitions and sample data -/

/-- The traversal the interface describes for a batch of roots: the roots are decoded
from left to right, the first root that does not decode ends the traversal with its
error (or its panic) and no expressions, and otherwise the decoded expressions are
returned in the order of their roots. -/
def shortCircuitTraversal (E : Env) (roots : List Expr) (tps : List (Option FieldType))
    (sc : StatementContext) : Outcome (List Expression) :=
  match roots with
  | [] => .ok []
  | r :: rest =>
    match PBToExpr E r tps sc with
    | .error err => .error err
    | .panic p => .panic p
    | .ok e =>
      match shortCircuitTraversal E rest tps sc with
      | .error err => .error err
      | .panic p => .panic p
      | .ok es => .ok (e :: es)

/-- A function node with a signature code outside the dispatch table is visited by
`PBToExpr` below this node: it is the node itself, or it lies below a child that is
not a value list. -/
inductive HasUnlistedSig : Expr → Prop where
  | here (Val : Bytes) (Children : List Expr) (c : Int) (ft : Option PbFieldType) :
      HasUnlistedSig (.mk .ScalarFunc Val Children (.unlisted c) ft)
  | under (Val : Bytes) (Children : List Expr) (Sig : ScalarFuncSig)
      (ft : Option PbFieldType) (child : Expr) :
      child ∈ Children → child.Tp ≠ ExprType.ValueList → HasUnlistedSig child →
      HasUnlistedSig (.mk .ScalarFunc Val Children Sig ft)

/-- No value-list child of a function node visited below this node decodes to zero
elements. -/
inductive ValueListsNonEmpty (E : Env) : Expr → Prop where
  | leaf (Tp : ExprType) (Val : Bytes) (Children : List Expr) (Sig : ScalarFuncSig)
      (ft : Option PbFieldType) :
      Tp ≠ ExprType.ScalarFunc → ValueListsNonEmpty E (.mk Tp Val Children Sig ft)
  | func (Val : Bytes) (Children : List Expr) (Sig : ScalarFuncSig)
      (ft : Option PbFieldType) :
      (∀ child ∈ Children, child.Tp = ExprType.ValueList →
        decodeValueList E child.Val ≠ .ok []) →
      (∀ child ∈ Children, child.Tp ≠ ExprType.ValueList → ValueListsNonEmpty E child) →
      ValueListsNonEmpty E (.mk .ScalarFunc Val Children Sig ft)

/-- A sample environment for evaluating the decoder on concrete inputs: the MySQL
values of the constants, a collation table with two entries, and library decoders
that reject every payload. -/
def sampleEnv : Env where
  Collations := fun k =>
    if k = 33 then some "utf8_general_ci" else if k = 63 then some "binary" else none
  TypeNull := 6
  TypeLonglong := 8
  TypeString := 254
  TypeVarString := 253
  TypeDouble := 5
  TypeNewDecimal := 246
  TypeDuration := 11
  TypeTimestamp := 7
  UnsignedFlag := 32
  MaxFsp := 6
  NewFieldType := fun tp =>
    { Tp := tp, Flag := 0, Flen := -1, Decimal := -1, Charset := "", Collate := "" }
  DecodeFloat := fun _ => ([], 0, some (.library "insufficient bytes to decode value"))
  float32 := fun f => f
  DecodeDecimal := fun _ =>
    ([], none, 0, 0, some (.library "insufficient bytes to decode value"))
  Decode := fun _ _ => ([], some (.library "invalid encoded key"))
  FromPackedUint := fun t _ => (t, none)
  ConvertTimeZone := fun t _ _ => (t, none)

/-- A sample wire type descriptor: a 20-digit integer with the binary collation. -/
def samplePbType : PbFieldType :=
  { Tp := 8, Flag := 0, Flen := 20, Decimal := 0, Charset := "binary", Collate := 63 }

/-- A sample statement context in UTC. -/
def sampleSc : StatementContext := { TimeZone := .UTC }

/-- A sample tree: a comparison whose second argument is a function node with a code
outside the dispatch table. -/
def sampleUnlistedTree : Expr :=
  .mk .ScalarFunc []
    [.mk .Int64 (EncodeInt 5) [] (.unlisted 0) none,
     .mk .ScalarFunc [] [] (.unlisted 9999) (some samplePbType)]
    .LTInt (some samplePbType)

/-! ## Operators and argument types of the signatures -/

/-- The logical operators that the names of the signature codes and of the function
structs of the dispatch table spell out. -/
inductive Operator where
  | LT | LE | GT | GE | EQ | NE | Plus | Minus | Multiply | Divide
  | LogicalAnd | LogicalOr | UnaryNot | UnaryMinus | IsNull | GetVar | SetVar
  | In | IfNull | If | Length | Strcmp
  deriving DecidableEq, Repr

/-- The argument types that the names of the signature codes and of the function
structs of the dispatch table spell out. -/
inductive ArgType where
  | Int | Real | Decimal | String | Time | Duration | IntUnsigned
  deriving DecidableEq, Repr

/-- The operator named by a signature code of the switch, read off the name of its
constant (`ScalarFuncSig_LTInt` is `LT`); a code outside the switch names none. -/
def ScalarFuncSig.operator : ScalarFuncSig → Option Operator
  | .LTInt => some .LT
  | .LTReal => some .LT
  | .LTDecimal => some .LT
  | .LTString => some .LT
  | .LTTime => some .LT
  | .LTDuration => some .LT
  | .LEInt => some .LE
  | .LEReal => some .LE
  | .LEDecimal => some .LE
  | .LEString => some .LE
  | .LETime => some .LE
  | .LEDuration => some .LE
  | .GTInt => some .GT
  | .GTReal => some .GT
  | .GTDecimal => some .GT
  | .GTString => some .GT
  | .GTTime => some .GT
  | .GTDuration => some .GT
  | .GEInt => some .GE
  | .GEReal => some .GE
  | .GEDecimal => some .GE
  | .GEString => some .GE
  | .GETime => some .GE
  | .GEDuration => some .GE
  | .EQInt => some .EQ
  | .EQReal => some .EQ
  | .EQDecimal => some .EQ
  | .EQString => some .EQ
  | .EQTime => some .EQ
  | .EQDuration => some .EQ
  | .NEInt => some .NE
  | .NEReal => some .NE
  | .NEDecimal => some .NE
  | .NEString => some .NE
  | .NETime => some .NE
  | .NEDuration => some .NE
  | .PlusReal => some .Plus
  | .PlusDecimal => some .Plus
  | .PlusInt => some .Plus
  | .MinusReal => some .Minus
  | .MinusDecimal => some .Minus
  | .MinusInt => some .Minus
  | .MultiplyReal => some .Multiply
  | .MultiplyDecimal => some .Multiply
  | .MultiplyInt => some .Multiply
  | .DivideReal => some .Divide
  | .DivideDecimal => some .Divide
  | .MultiplyIntUnsigned => some .Multiply
  | .LogicalAnd => some .LogicalAnd
  | .LogicalOr => some .LogicalOr
  | .UnaryNotInt => some .UnaryNot
  | .UnaryNotDecimal => some .UnaryNot
  | .UnaryNotReal => some .UnaryNot
  | .UnaryMinusInt => some .UnaryMinus
  | .UnaryMinusReal => some .UnaryMinus
  | .UnaryMinusDecimal => some .UnaryMinus
  | .DecimalIsNull => some .IsNull
  | .DurationIsNull => some .IsNull
  | .RealIsNull => some .IsNull
  | .StringIsNull => some .IsNull
  | .TimeIsNull => some .IsNull
  | .IntIsNull => some .IsNull
  | .GetVar => some .GetVar
  | .SetVar => some .SetVar
  | .InInt => some .In
  | .InReal => some .In
  | .InDecimal => some .In
  | .InString => some .In
  | .InTime => some .In
  | .InDuration => some .In
  | .IfNullInt => some .IfNull
  | .IfNullReal => some .IfNull
  | .IfNullDecimal => some .IfNull
  | .IfNullString => some .IfNull
  | .IfNullTime => some .IfNull
  | .IfNullDuration => some .IfNull
  | .IfInt => some .If
  | .IfReal => some .If
  | .IfDecimal => some .If
  | .IfString => some .If
  | .IfTime => some .If
  | .IfDuration => some .If
  | .Length => some .Length
  | .Strcmp => some .Strcmp
  | .unlisted _ => none

/-- The argument type named by a signature code of the switch, read off the name of
its constant (`ScalarFuncSig_LTInt` is `Int`); `none` for a code whose name has none. -/
def ScalarFuncSig.argType : ScalarFuncSig → Option ArgType
  | .LTInt => some .Int
  | .LTReal => some .Real
  | .LTDecimal => some .Decimal
  | .LTString => some .String
  | .LTTime => some .Time
  | .LTDuration => some .Duration
  | .LEInt => some .Int
  | .LEReal => some .Real
  | .LEDecimal => some .Decimal
  | .LEString => some .String
  | .LETime => some .Time
  | .LEDuration => some .Duration
  | .GTInt => some .Int
  | .GTReal => some .Real
  | .GTDecimal => some .Decimal
  | .GTString => some .String
  | .GTTime => some .Time
  | .GTDuration => some .Duration
  | .GEInt => some .Int
  | .GEReal => some .Real
  | .GEDecimal => some .Decimal
  | .GEString => some .String
  | .GETime => some .Time
  | .GEDuration => some .Duration
  | .EQInt => some .Int
  | .EQReal => some .Real
  | .EQDecimal => some .Decimal
  | .EQString => some .String
  | .EQTime => some .Time
  | .EQDuration => some .Duration
  | .NEInt => some .Int
  | .NEReal => some .Real
  | .NEDecimal => some .Decimal
  | .NEString => some .String
  | .NETime => some .Time
  | .NEDuration => some .Duration
  | .PlusReal => some .Real
  | .PlusDecimal => some .Decimal
  | .PlusInt => some .Int
  | .MinusReal => some .Real
  | .MinusDecimal => some .Decimal
  | .MinusInt => some .Int
  | .MultiplyReal => some .Real
  | .MultiplyDecimal => some .Decimal
  | .MultiplyInt => some .Int
  | .DivideReal => some .Real
  | .DivideDecimal => some .Decimal
  | .MultiplyIntUnsigned => some .IntUnsigned
  | .LogicalAnd => none
  | .LogicalOr => none
  | .UnaryNotInt => some .Int
  | .UnaryNotDecimal => some .Decimal
  | .UnaryNotReal => some .Real
  | .UnaryMinusInt => some .Int
  | .UnaryMinusReal => some .Real
  | .UnaryMinusDecimal => some .Decimal
  | .DecimalIsNull => some .Decimal
  | .DurationIsNull => some .Duration
  | .RealIsNull => some .Real
  | .StringIsNull => some .String
  | .TimeIsNull => some .Time
  | .IntIsNull => some .Int
  | .GetVar => none
  | .SetVar => none
  | .InInt => some .Int
  | .InReal => some .Real
  | .InDecimal => some .Decimal
  | .InString => some .String
  | .InTime => some .Time
  | .InDuration => some .Duration
  | .IfNullInt => some .Int
  | .IfNullReal => some .Real
  | .IfNullDecimal => some .Decimal
  | .IfNullString => some .String
  | .IfNullTime => some .Time
  | .IfNullDuration => some .Duration
  | .IfInt => some .Int
  | .IfReal => some .Real
  | .IfDecimal => some .Decimal
  | .IfString => some .String
  | .IfTime => some .Time
  | .IfDuration => some .Duration
  | .Length => none
  | .Strcmp => none
  | .unlisted _ => none

/-- The operator a function struct implements, read off the name of its type
(`builtinLTIntSig` is `LT`, `builtinArithmeticPlusRealSig` is `Plus`). -/
def BuiltinSig.operator : BuiltinSig → Operator
  | .builtinLTIntSig => .LT
  | .builtinLTRealSig => .LT
  | .builtinLTDecimalSig => .LT
  | .builtinLTStringSig => .LT
  | .builtinLTTimeSig => .LT
  | .builtinLTDurationSig => .LT
  | .builtinLEIntSig => .LE
  | .builtinLERealSig => .LE
  | .builtinLEDecimalSig => .LE
  | .builtinLEStringSig => .LE
  | .builtinLETimeSig => .LE
  | .builtinLEDurationSig => .LE
  | .builtinGTIntSig => .GT
  | .builtinGTRealSig => .GT
  | .builtinGTDecimalSig => .GT
  | .builtinGTStringSig => .GT
  | .builtinGTTimeSig => .GT
  | .builtinGTDurationSig => .GT
  | .builtinGEIntSig => .GE
  | .builtinGERealSig => .GE
  | .builtinGEDecimalSig => .GE
  | .builtinGEStringSig => .GE
  | .builtinGETimeSig => .GE
  | .builtinGEDurationSig => .GE
  | .builtinEQIntSig => .EQ
  | .builtinEQRealSig => .EQ
  | .builtinEQDecimalSig => .EQ
  | .builtinEQStringSig => .EQ
  | .builtinEQTimeSig => .EQ
  | .builtinEQDurationSig => .EQ
  | .builtinNEIntSig => .NE
  | .builtinNERealSig => .NE
  | .builtinNEDecimalSig => .NE
  | .builtinNEStringSig => .NE
  | .builtinNETimeSig => .NE
  | .builtinNEDurationSig => .NE
  | .builtinArithmeticPlusRealSig => .Plus
  | .builtinArithmeticPlusDecimalSig => .Plus
  | .builtinArithmeticPlusIntSig => .Plus
  | .builtinArithmeticMinusRealSig => .Minus
  | .builtinArithmeticMinusDecimalSig => .Minus
  | .builtinArithmeticMinusIntSig => .Minus
  | .builtinArithmeticMultiplyRealSig => .Multiply
  | .builtinArithmeticMultiplyDecimalSig => .Multiply
  | .builtinArithmeticMultiplyIntSig => .Multiply
  | .builtinArithmeticDivideRealSig => .Divide
  | .builtinArithmeticDivideDecimalSig => .Divide
  | .builtinArithmeticMultiplyIntUnsignedSig => .Multiply
  | .builtinLogicAndSig => .LogicalAnd
  | .builtinLogicOrSig => .LogicalOr
  | .builtinUnaryNotIntSig => .UnaryNot
  | .builtinUnaryNotDecimalSig => .UnaryNot
  | .builtinUnaryNotRealSig => .UnaryNot
  | .builtinUnaryMinusIntSig => .UnaryMinus
  | .builtinUnaryMinusRealSig => .UnaryMinus
  | .builtinUnaryMinusDecimalSig _ => .UnaryMinus
  | .builtinDecimalIsNullSig => .IsNull
  | .builtinDurationIsNullSig => .IsNull
  | .builtinRealIsNullSig => .IsNull
  | .builtinStringIsNullSig => .IsNull
  | .builtinTimeIsNullSig => .IsNull
  | .builtinIntIsNullSig => .IsNull
  | .builtinGetVarSig => .GetVar
  | .builtinSetVarSig => .SetVar
  | .builtinInIntSig => .In
  | .builtinInRealSig => .In
  | .builtinInDecimalSig => .In
  | .builtinInStringSig => .In
  | .builtinInTimeSig => .In
  | .builtinInDurationSig => .In
  | .builtinIfNullIntSig => .IfNull
  | .builtinIfNullRealSig => .IfNull
  | .builtinIfNullDecimalSig => .IfNull
  | .builtinIfNullStringSig => .IfNull
  | .builtinIfNullTimeSig => .IfNull
  | .builtinIfNullDurationSig => .IfNull
  | .builtinIfIntSig => .If
  | .builtinIfRealSig => .If
  | .builtinIfDecimalSig => .If
  | .builtinIfStringSig => .If
  | .builtinIfTimeSig => .If
  | .builtinIfDurationSig => .If
  | .builtinLengthSig => .Length
  | .builtinStrcmpSig => .Strcmp

/-- The argument type a function struct is specialised to, read off the name of its
type (`builtinLTIntSig` is `Int`); `none` for a struct whose name has none. -/
def BuiltinSig.argType : BuiltinSig → Option ArgType
  | .builtinLTIntSig => some .Int
  | .builtinLTRealSig => some .Real
  | .builtinLTDecimalSig => some .Decimal
  | .builtinLTStringSig => some .String
  | .builtinLTTimeSig => some .Time
  | .builtinLTDurationSig => some .Duration
  | .builtinLEIntSig => some .Int
  | .builtinLERealSig => some .Real
  | .builtinLEDecimalSig => some .Decimal
  | .builtinLEStringSig => some .String
  | .builtinLETimeSig => some .Time
  | .builtinLEDurationSig => some .Duration
  | .builtinGTIntSig => some .Int
  | .builtinGTRealSig => some .Real
  | .builtinGTDecimalSig => some .Decimal
  | .builtinGTStringSig => some .String
  | .builtinGTTimeSig => some .Time
  | .builtinGTDurationSig => some .Duration
  | .builtinGEIntSig => some .Int
  | .builtinGERealSig => some .Real
  | .builtinGEDecimalSig => some .Decimal
  | .builtinGEStringSig => some .String
  | .builtinGETimeSig => some .Time
  | .builtinGEDurationSig => some .Duration
  | .builtinEQIntSig => some .Int
  | .builtinEQRealSig => some .Real
  | .builtinEQDecimalSig => some .Decimal
  | .builtinEQStringSig => some .String
  | .builtinEQTimeSig => some .Time
  | .builtinEQDurationSig => some .Duration
  | .builtinNEIntSig => some .Int
  | .builtinNERealSig => some .Real
  | .builtinNEDecimalSig => some .Decimal
  | .builtinNEStringSig => some .String
  | .builtinNETimeSig => some .Time
  | .builtinNEDurationSig => some .Duration
  | .builtinArithmeticPlusRealSig => some .Real
  | .builtinArithmeticPlusDecimalSig => some .Decimal
  | .builtinArithmeticPlusIntSig => some .Int
  | .builtinArithmeticMinusRealSig => some .Real
  | .builtinArithmeticMinusDecimalSig => some .Decimal
  | .builtinArithmeticMinusIntSig => some .Int
  | .builtinArithmeticMultiplyRealSig => some .Real
  | .builtinArithmeticMultiplyDecimalSig => some .Decimal
  | .builtinArithmeticMultiplyIntSig => some .Int
  | .builtinArithmeticDivideRealSig => some .Real
  | .builtinArithmeticDivideDecimalSig => some .Decimal
  | .builtinArithmeticMultiplyIntUnsignedSig => some .IntUnsigned
  | .builtinLogicAndSig => none
  | .builtinLogicOrSig => none
  | .builtinUnaryNotIntSig => some .Int
  | .builtinUnaryNotDecimalSig => some .Decimal
  | .builtinUnaryNotRealSig => some .Real
  | .builtinUnaryMinusIntSig => some .Int
  | .builtinUnaryMinusRealSig => some .Real
  | .builtinUnaryMinusDecimalSig _ => some .Decimal
  | .builtinDecimalIsNullSig => some .Decimal
  | .builtinDurationIsNullSig => some .Duration
  | .builtinRealIsNullSig => some .Real
  | .builtinStringIsNullSig => some .String
  | .builtinTimeIsNullSig => some .Time
  | .builtinIntIsNullSig => some .Int
  | .builtinGetVarSig => none
  | .builtinSetVarSig => none
  | .builtinInIntSig => some .Int
  | .builtinInRealSig => some .Real
  | .builtinInDecimalSig => some .Decimal
  | .builtinInStringSig => some .String
  | .builtinInTimeSig => some .Time
  | .builtinInDurationSig => some .Duration
  | .builtinIfNullIntSig => some .Int
  | .builtinIfNullRealSig => some .Real
  | .builtinIfNullDecimalSig => some .Decimal
  | .builtinIfNullStringSig => some .String
  | .builtinIfNullTimeSig => some .Time
  | .builtinIfNullDurationSig => some .Duration
  | .builtinIfIntSig => some .Int
  | .builtinIfRealSig => some .Real
  | .builtinIfDecimalSig => some .Decimal
  | .builtinIfStringSig => some .String
  | .builtinIfTimeSig => some .Time
  | .builtinIfDurationSig => some .Duration
  | .builtinLengthSig => none
  | .builtinStrcmpSig => none

/-- The signature code of the case of the switch in `getSignatureByPB` that builds a
function struct of this type. -/
def BuiltinSig.caseOf : BuiltinSig → ScalarFuncSig
  | .builtinLTIntSig => .LTInt
  | .builtinLTRealSig => .LTReal
  | .builtinLTDecimalSig => .LTDecimal
  | .builtinLTStringSig => .LTString
  | .builtinLTTimeSig => .LTTime
  | .builtinLTDurationSig => .LTDuration
  | .builtinLEIntSig => .LEInt
  | .builtinLERealSig => .LEReal
  | .builtinLEDecimalSig => .LEDecimal
  | .builtinLEStringSig => .LEString
  | .builtinLETimeSig => .LETime
  | .builtinLEDurationSig => .LEDuration
  | .builtinGTIntSig => .GTInt
  | .builtinGTRealSig => .GTReal
  | .builtinGTDecimalSig => .GTDecimal
  | .builtinGTStringSig => .GTString
  | .builtinGTTimeSig => .GTTime
  | .builtinGTDurationSig => .GTDuration
  | .builtinGEIntSig => .GEInt
  | .builtinGERealSig => .GEReal
  | .builtinGEDecimalSig => .GEDecimal
  | .builtinGEStringSig => .GEString
  | .builtinGETimeSig => .GETime
  | .builtinGEDurationSig => .GEDuration
  | .builtinEQIntSig => .EQInt
  | .builtinEQRealSig => .EQReal
  | .builtinEQDecimalSig => .EQDecimal
  | .builtinEQStringSig => .EQString
  | .builtinEQTimeSig => .EQTime
  | .builtinEQDurationSig => .EQDuration
  | .builtinNEIntSig => .NEInt
  | .builtinNERealSig => .NEReal
  | .builtinNEDecimalSig => .NEDecimal
  | .builtinNEStringSig => .NEString
  | .builtinNETimeSig => .NETime
  | .builtinNEDurationSig => .NEDuration
  | .builtinArithmeticPlusRealSig => .PlusReal
  | .builtinArithmeticPlusDecimalSig => .PlusDecimal
  | .builtinArithmeticPlusIntSig => .PlusInt
  | .builtinArithmeticMinusRealSig => .MinusReal
  | .builtinArithmeticMinusDecimalSig => .MinusDecimal
  | .builtinArithmeticMinusIntSig => .MinusInt
  | .builtinArithmeticMultiplyRealSig => .MultiplyReal
  | .builtinArithmeticMultiplyDecimalSig => .MultiplyDecimal
  | .builtinArithmeticMultiplyIntSig => .MultiplyInt
  | .builtinArithmeticDivideRealSig => .DivideReal
  | .builtinArithmeticDivideDecimalSig => .DivideDecimal
  | .builtinArithmeticMultiplyIntUnsignedSig => .MultiplyIntUnsigned
  | .builtinLogicAndSig => .LogicalAnd
  | .builtinLogicOrSig => .LogicalOr
  | .builtinUnaryNotIntSig => .UnaryNotInt
  | .builtinUnaryNotDecimalSig => .UnaryNotDecimal
  | .builtinUnaryNotRealSig => .UnaryNotReal
  | .builtinUnaryMinusIntSig => .UnaryMinusInt
  | .builtinUnaryMinusRealSig => .UnaryMinusReal
  | .builtinUnaryMinusDecimalSig _ => .UnaryMinusDecimal
  | .builtinDecimalIsNullSig => .DecimalIsNull
  | .builtinDurationIsNullSig => .DurationIsNull
  | .builtinRealIsNullSig => .RealIsNull
  | .builtinStringIsNullSig => .StringIsNull
  | .builtinTimeIsNullSig => .TimeIsNull
  | .builtinIntIsNullSig => .IntIsNull
  | .builtinGetVarSig => .GetVar
  | .builtinSetVarSig => .SetVar
  | .builtinInIntSig => .InInt
  | .builtinInRealSig => .InReal
  | .builtinInDecimalSig => .InDecimal
  | .builtinInStringSig => .InString
  | .builtinInTimeSig => .InTime
  | .builtinInDurationSig => .InDuration
  | .builtinIfNullIntSig => .IfNullInt
  | .builtinIfNullRealSig => .IfNullReal
  | .builtinIfNullDecimalSig => .IfNullDecimal
  | .builtinIfNullStringSig => .IfNullString
  | .builtinIfNullTimeSig => .IfNullTime
  | .builtinIfNullDurationSig => .IfNullDuration
  | .builtinIfIntSig => .IfInt
  | .builtinIfRealSig => .IfReal
  | .builtinIfDecimalSig => .IfDecimal
  | .builtinIfStringSig => .IfString
  | .builtinIfTimeSig => .IfTime
  | .builtinIfDurationSig => .IfDuration
  | .builtinLengthSig => .Length
  | .builtinStrcmpSig => .Strcmp

/-- The arithmetic operators. -/
def Operator.isArithmetic : Operator → Bool
  | .Plus | .Minus | .Multiply | .Divide => true
  | _ => false

/-- A signature code is arithmetic when the operator it names is. -/
def ScalarFuncSig.isArithmetic (c : ScalarFuncSig) : Bool :=
  match c.operator with
  | some op => op.isArithmetic
  | none => false

/-- The arithmetic codes among the cases of the switch in `getSignatureByPB`, in source
order. -/
def arithmeticCases : List ScalarFuncSig :=
  [.PlusReal, .PlusDecimal, .PlusInt, .MinusReal, .MinusDecimal, .MinusInt,
   .MultiplyReal, .MultiplyDecimal, .MultiplyInt, .DivideReal, .DivideDecimal,
   .MultiplyIntUnsigned]


/-! ## Sample library code for concrete evaluation -/

/-- A sample `FromPackedUint`: the calendar fields are cut out of the packed integer
(microseconds in the low 24 bits, then seconds, minutes, hours, day, and year and
month), and no input is rejected. -/
def sampleFromPackedUint (t : Time) (packed : Nat) : Time × Option Error :=
  let ymdhms := packed / 2 ^ 24
  let ymd := ymdhms / 2 ^ 17
  let hms := ymdhms % 2 ^ 17
  ({ core := { year := ymd / 32 / 13, month := ymd / 32 % 13, day := ymd % 32,
               hour := hms / 4096, minute := hms / 64 % 64, second := hms % 64,
               microsecond := packed % 2 ^ 24 },
     Type_ := t.Type_, Fsp := t.Fsp }, none)

/-- A sample `ConvertTimeZone`: the location `other h` lies `h` hours east of UTC, and
the conversion from UTC moves the hour of the day by that much. -/
def sampleConvertTimeZone (t : Time) (_fromLoc : Location) (toLoc : Location) :
    Time × Option Error :=
  match toLoc with
  | .UTC => (t, none)
  | .other h =>
    ({ core := { year := t.core.year, month := t.core.month, day := t.core.day,
                 hour := (t.core.hour + h) % 24, minute := t.core.minute,
                 second := t.core.second, microsecond := t.core.microsecond },
       Type_ := t.Type_, Fsp := t.Fsp }, none)

/-- A sample `DecodeDecimal`: the payload is a precision byte, a fraction byte and one
digit byte; a payload that lacks the digit byte is reported as an error together with
the decimal zero recovered so far. -/
def sampleDecodeDecimal (b : Bytes) : Bytes × Option MyDecimal × Int × Int × Option Error :=
  match b with
  | precision :: frac :: d :: rest => (rest, some ⟨d, frac⟩, precision, frac, none)
  | precision :: frac :: [] =>
    ([], some ⟨0, frac⟩, precision, frac, some (.library "insufficient bytes to decode value"))
  | _ => ([], none, 0, 0, some (.library "insufficient bytes to decode value"))

/-- A sample `Decode`: the payload is a sequence of integers, each written as the flag
byte 3 followed by the eight bytes of its ordered encoding. -/
def sampleDecode : Bytes → List Datum × Option Error
  | [] => ([], none)
  | 3 :: b0 :: b1 :: b2 :: b3 :: b4 :: b5 :: b6 :: b7 :: rest =>
    match sampleDecode rest with
    | (_, some err) => ([], some err)
    | (values, none) =>
      (Datum.Int64 ((bigEndian [b0, b1, b2, b3, b4, b5, b6, b7] : Int) - 2 ^ 63) :: values,
        none)
  | _ => ([], some (.library "invalid encoded key"))

/-- A sample environment with the sample codecs above, and otherwise as `sampleEnv`. -/
def sampleCodecEnv : Env where
  Collations := sampleEnv.Collations
  TypeNull := 6
  TypeLonglong := 8
  TypeString := 254
  TypeVarString := 253
  TypeDouble := 5
  TypeNewDecimal := 246
  TypeDuration := 11
  TypeTimestamp := 7
  UnsignedFlag := 32
  MaxFsp := 6
  NewFieldType := sampleEnv.NewFieldType
  DecodeFloat := sampleEnv.DecodeFloat
  float32 := fun f => f
  DecodeDecimal := sampleDecodeDecimal
  Decode := fun b _ => sampleDecode b
  FromPackedUint := sampleFromPackedUint
  ConvertTimeZone := sampleConvertTimeZone

/-! ## Specification-side definitions for the function node and the recursion -/

/-- What a child of a function node contributes to the argument list: the constants of
a value-list child, of which there is at least one, and the single expression decoded
from any other child. -/
def Contribution (E : Env) (tps : List (Option FieldType)) (sc : StatementContext)
    (child : Expr) (l : List Expression) : Prop :=
  if child.Tp = ExprType.ValueList then decodeValueList E child.Val = .ok l ∧ l ≠ []
  else ∃ e, PBToExpr E child tps sc = .ok e ∧ l = [e]

mutual
/-- The nesting depth of a tree: one more than that of its deepest child. -/
def Expr.depth : Expr → Nat
  | .mk _ _ Children _ _ => 1 + Expr.depthList Children
/-- The greatest nesting depth among a list of trees. -/
def Expr.depthList : List Expr → Nat
  | [] => 0
  | child :: rest => max child.depth (Expr.depthList rest)
end

mutual
/-- The nesting depth of the part of a tree below function nodes only, value-list
children left out. -/
def Expr.visitDepth : Expr → Nat
  | .mk Tp _ Children _ _ =>
    if Tp = ExprType.ScalarFunc then 1 + Expr.visitDepthList Children else 1
/-- The greatest such depth among the children that are not value lists. -/
def Expr.visitDepthList : List Expr → Nat
  | [] => 0
  | child :: rest =>
    max (if child.Tp = ExprType.ValueList then 0 else child.visitDepth)
      (Expr.visitDepthList rest)
end

mutual
/-- The number of nodes of a tree. -/
def Expr.size : Expr → Nat
  | .mk _ _ Children _ _ => 1 + Expr.sizeList Children
/-- The number of nodes of a list of trees. -/
def Expr.sizeList : List Expr → Nat
  | [] => 0
  | child :: rest => child.size + Expr.sizeList rest
end

mutual
/-- The run of `PBToExpr` with a bound `fuel` on the depth of nested calls of `PBToExpr`
and a count of the calls made: `none` when a call would nest deeper than the bound.
A node of a kind other than ScalarFunc is handled by the switch with no nested call;
a function node runs the loop over its children one level deeper. -/
def PBToExprFuel (E : Env) (fuel : Nat) (expr : Expr) (tps : List (Option FieldType))
    (sc : StatementContext) : Option (Outcome Expression × Nat) :=
  match fuel, expr with
  | 0, _ => none
  | fuel + 1, .mk Tp Val Children Sig FieldType =>
    if Tp = ExprType.ScalarFunc then
      match PBToExprFuel.loop E fuel Children tps sc [] 1 with
      | none => none
      | some (.returned o, calls) => some (o, calls)
      | some (.args args, calls) =>
        some (newDistSQLFunctionBySig E sc Sig FieldType args, calls)
    else some (PBToExpr E (.mk Tp Val Children Sig FieldType) tps sc, 1)
/-- The loop over the children under the same bound: a value-list child is decoded with
no call of `PBToExpr`, every other child by one call. -/
def PBToExprFuel.loop (E : Env) (fuel : Nat) (children : List Expr)
    (tps : List (Option FieldType)) (sc : StatementContext) (args : List Expression)
    (calls : Nat) : Option (LoopResult × Nat) :=
  match children with
  | [] => some (.args args, calls)
  | child :: rest =>
    if child.Tp = ExprType.ValueList then
      match decodeValueList E child.Val with
      | .error err => some (.returned (.error err), calls)
      | .panic p => some (.returned (.panic p), calls)
      | .ok results =>
        if results.length = 0 then
          some (.returned
            (.ok (.Constant (NewDatum false) (some (E.NewFieldType E.TypeLonglong)))), calls)
        else PBToExprFuel.loop E fuel rest tps sc (args ++ results) calls
    else
      match PBToExprFuel E fuel child tps sc with
      | none => none
      | some (.error err, c) => some (.returned (.error err), calls + c)
      | some (.panic p, c) => some (.returned (.panic p), calls + c)
      | some (.ok arg, c) => PBToExprFuel.loop E fuel rest tps sc (args ++ [arg]) (calls + c)
end

/-- A sample tree: a membership test over an integer and a value list, where both the
integer node and the value-list node carry children of their own that the decoder has
no reason to visit. -/
def sampleDeepTree : Expr :=
  .mk .ScalarFunc []
    [.mk .Int64 (EncodeInt 5)
       [.mk .ScalarFunc [] [] (.unlisted 9999) none] (.unlisted 0) none,
     .mk .ValueList (3 :: EncodeInt 7)
       [.mk .ScalarFunc [] [.mk .ScalarFunc [] [] (.unlisted 9999) none] (.unlisted 9999)
          none]
       (.unlisted 0) none]
    .InInt (some samplePbType)

/-- A child of a function node decodes: a value-list child to some list of constants,
any other child to an expression. -/
def Decodes (E : Env) (tps : List (Option FieldType)) (sc : StatementContext)
    (child : Expr) : Prop :=
  if child.Tp = ExprType.ValueList then ∃ l, decodeValueList E child.Val = .ok l
  else ∃ e, PBToExpr E child tps sc = .ok e

/-- A sample function node with an unlisted signature code and no type descriptor: an
integer, a value list of one element, an empty value list, and then a malformed integer
and a node of an unknown kind. -/
def sampleEarlyReturnTree : Expr :=
  .mk .ScalarFunc []
    ([.mk .Int64 (EncodeInt 5) [] (.unlisted 0) none,
      .mk .ValueList (3 :: EncodeInt 7) [] (.unlisted 0) none]
      ++ .mk .ValueList [] [] (.unlisted 0) none
      :: [.mk .Int64 [1, 2, 3] [] (.unlisted 0) none,
          .mk (.unlisted 9999) [] [] (.unlisted 0) none])
    (.unlisted 9999) none

/-! ## The generated vectorised IF (expression/generator/control_vec.go) -/

/-- Sequencing of two steps, the second of which runs only when the first returns a
value. -/
def Outcome.bind {α β : Type} (o : Outcome α) (f : α → Outcome β) : Outcome β :=
  match o with
  | .ok a => f a
  | .error err => .error err
  | .panic p => .panic p

/-- Modelled from the spec: `chunk.Column` is declared outside the source; a column
holds for every row a null flag and a value, the value of a null row being whatever was
stored there. -/
structure Column (α : Type) where
  nulls : List Bool
  data : List α
  deriving DecidableEq, Repr

/-- Reading `xs[i]` from a slice; an index outside the slice panics. -/
def sliceIndex {α : Type} (xs : List α) (i : Nat) : Outcome α :=
  match xs[i]? with
  | some x => .ok x
  | none => .panic (.indexOutOfRange i xs.length)

/-- Modelled from the spec: `(*chunk.Column).IsNull` is outside the source; it reads
the null flag of row `i`. -/
def Column.IsNull {α : Type} (c : Column α) (i : Nat) : Outcome Bool :=
  sliceIndex c.nulls i

/-- Modelled from the spec: `(*chunk.Column).SetNull` is outside the source; it
overwrites the null flag of row `i` and leaves the values alone. -/
def Column.SetNull {α : Type} (c : Column α) (i : Nat) (isNull : Bool) :
    Outcome (Column α) :=
  if i < c.nulls.length then .ok { nulls := c.nulls.set i isNull, data := c.data }
  else .panic (.indexOutOfRange i c.nulls.length)

/-- The assignment `rs[i] = v` through the slice of the values of the column. -/
def Column.assign {α : Type} (c : Column α) (i : Nat) (v : α) : Outcome (Column α) :=
  if i < c.data.length then .ok { nulls := c.nulls, data := c.data.set i v }
  else .panic (.indexOutOfRange i c.data.length)

/-- Modelled from the spec: `(*chunk.Column).AppendNull` is outside the source; it adds
a null row, which holds the empty value. -/
def Column.AppendNull {α : Type} [Inhabited α] (c : Column α) : Column α :=
  { nulls := c.nulls ++ [true], data := c.data ++ [default] }

/-- Modelled from the spec: the `Append` methods of `chunk.Column` are outside the
source; they add a row that is not null and holds the value. -/
def Column.Append {α : Type} (c : Column α) (v : α) : Column α :=
  { nulls := c.nulls ++ [false], data := c.data ++ [v] }

/-- Modelled from the spec: the `Get` methods of `chunk.Column` are outside the source;
they read the value of row `i`. -/
def Column.Get {α : Type} (c : Column α) (i : Nat) : Outcome α :=
  sliceIndex c.data i

/-- Modelled from the spec: the `Reserve` methods of `chunk.Column` are outside the
source; they empty the column and keep room for `n` rows. -/
def Column.Reserve {α : Type} (_c : Column α) (_n : Nat) : Column α :=
  { nulls := [], data := [] }

/-- The body of the loop of `vecEval` in the template `builtinIfVec`, for row `i`; the
flag `Fixed` chooses the branches of the template as `.Fixed` does, and `buf1` exists
in the variable-width variant only. -/
def builtinIfVec.body {α : Type} [Inhabited α] (Fixed : Bool) (buf0 : Column Int)
    (buf1 buf2 : Column α) (i : Nat) (result : Column α) : Outcome (Column α) :=
  (sliceIndex buf0.data i).bind fun arg =>
  (buf0.IsNull i).bind fun isNull0 =>
  if isNull0 = true ∨ arg = 0 then
    if Fixed then
      (buf2.IsNull i).bind fun null2 =>
      if null2 then result.SetNull i true
      else
        (result.SetNull i false).bind fun result =>
        (sliceIndex buf2.data i).bind fun v =>
        result.assign i v
    else
      (buf2.IsNull i).bind fun null2 =>
      if null2 then .ok result.AppendNull
      else (buf2.Get i).bind fun v => .ok (result.Append v)
  else if arg ≠ 0 then
    if Fixed then .ok result
    else
      (buf1.IsNull i).bind fun null1 =>
      if null1 then .ok result.AppendNull
      else (buf1.Get i).bind fun v => .ok (result.Append v)
  else .ok result

/-- The loop `for i := 0; i < n; i++` of the template, with `k` rows still to visit
from row `i` on. -/
def builtinIfVec.loop {α : Type} [Inhabited α] (Fixed : Bool) (buf0 : Column Int)
    (buf1 buf2 : Column α) : Nat → Nat → Column α → Outcome (Column α)
  | 0, _, result => .ok result
  | k + 1, i, result =>
    (builtinIfVec.body Fixed buf0 buf1 buf2 i result).bind fun result =>
    builtinIfVec.loop Fixed buf0 buf1 buf2 k (i + 1) result

/-- The method `vecEval` generated from the template `builtinIfVec` for a type with the
given `Fixed` flag, on an input of `n` rows. The calls of code outside the source are
given by their results: `get0`, `get1`, `get2` are the errors of the buffer allocator,
and `eval0`, `eval1`, `eval2` are the columns that the vectorised evaluations of the
three arguments leave in their buffer, or their errors. In the fixed-width variant the
second argument is evaluated into `result` itself. -/
def builtinIfVec {α : Type} [Inhabited α] (Fixed : Bool) (n : Nat)
    (get0 : Option Error) (eval0 : Outcome (Column Int))
    (get1 : Option Error) (eval1 : Outcome (Column α))
    (get2 : Option Error) (eval2 : Outcome (Column α))
    (result : Column α) : Outcome (Column α) :=
  match get0 with
  | some err => .error err
  | none =>
    eval0.bind fun buf0 =>
    if Fixed then
      eval1.bind fun result =>
      match get2 with
      | some err => .error err
      | none =>
        eval2.bind fun buf2 =>
        builtinIfVec.loop Fixed buf0 result buf2 n 0 result
    else
      match get1 with
      | some err => .error err
      | none =>
        eval1.bind fun buf1 =>
        match get2 with
        | some err => .error err
        | none =>
          eval2.bind fun buf2 =>
          let result := result.Reserve n
          builtinIfVec.loop Fixed buf0 buf1 buf2 n 0 result

/-- The logical content of row `i` of a column: `none` for a null row. -/
def Column.row {α : Type} (c : Column α) (i : Nat) : Option α :=
  match c.nulls[i]?, c.data[i]? with
  | some false, some v => some v
  | _, _ => none

/-- The logical content of a column, row by row. -/
def Column.rows {α : Type} (c : Column α) : List (Option α) :=
  (List.range c.nulls.length).map c.row

/-- The row of IF as the interface describes it: the row of the third argument when the
condition is null or 0, and the row of the second argument otherwise. -/
def ifRowSpec {α : Type} (cond : Column Int) (second third : Column α) (i : Nat) :
    Option α :=
  match cond.row i with
  | none => third.row i
  | some arg => if arg = 0 then third.row i else second.row i

/-- A sample condition column: 1, null, 0, 7. -/
def sampleCond : Column Int := { nulls := [false, true, false, false], data := [1, 5, 0, 7] }

/-- A sample second argument: 10, 20, 30, null. -/
def sampleSecond : Column Int :=
  { nulls := [false, false, false, true], data := [10, 20, 30, 40] }

/-- A sample third argument: 100, null, 300, 400. -/
def sampleThird : Column Int :=
  { nulls := [false, true, false, false], data := [100, 200, 300, 400] }

/-! ## Lemmas -/

theorem bigEndian_EncodeUint (u : Nat) (hu : u < 2 ^ 64) : bigEndian (EncodeUint u) = u := by
  simp only [bigEndian, EncodeUint, List.foldl]
  norm_num
  omega

theorem DecodeUint_EncodeUint (u : Nat) (hu : u < 2 ^ 64) :
    DecodeUint (EncodeUint u) = ([], u, none) := by
  have h := bigEndian_EncodeUint u hu
  have hl : (EncodeUint u).length = 8 := rfl
  have ht : List.take 8 (EncodeUint u) = EncodeUint u := by simp [EncodeUint]
  have hd : List.drop 8 (EncodeUint u) = [] := by simp [EncodeUint]
  simp [DecodeUint, hl, ht, hd, h]

theorem DecodeInt_EncodeInt (x : Int) (h1 : -2 ^ 63 ≤ x) (h2 : x < 2 ^ 63) :
    DecodeInt (EncodeInt x) = ([], x, none) := by
  have hu : (x + 2 ^ 63).toNat < 2 ^ 64 := by omega
  have h := bigEndian_EncodeUint _ hu
  have hl : (EncodeUint (x + 2 ^ 63).toNat).length = 8 := rfl
  have ht : List.take 8 (EncodeUint (x + 2 ^ 63).toNat) = EncodeUint (x + 2 ^ 63).toNat := by
    simp [EncodeUint]
  have hd : List.drop 8 (EncodeUint (x + 2 ^ 63).toNat) = [] := by
    simp [EncodeUint]
  simp only [DecodeInt, EncodeInt, hl, ht, hd, h]
  simp
  omega

theorem DecodeInt_short (val : Bytes) (h : val.length < 8) :
    DecodeInt val = ([], 0, some .insufficientBytes) := by
  simp [DecodeInt, h]

theorem DecodeUint_short (val : Bytes) (h : val.length < 8) :
    DecodeUint val = ([], 0, some .insufficientBytes) := by
  simp [DecodeUint, h]

theorem PBToExpr_ColumnRef (E : Env) (Val : Bytes) (Children : List Expr)
    (Sig : ScalarFuncSig) (ft : Option PbFieldType) (tps : List (Option FieldType))
    (sc : StatementContext) :
    PBToExpr E (.mk .ColumnRef Val Children Sig ft) tps sc =
      match DecodeInt Val with
      | (_, _, some err) => .error err
      | (_, offset, none) =>
        match (if 0 ≤ offset then tps[offset.toNat]? else none) with
        | some t => .ok (.Column (int offset) t)
        | none => .panic (.indexOutOfRange offset tps.length) := by
  simp only [PBToExpr]

theorem PBToExpr_Int64 (E : Env) (Val : Bytes) (Children : List Expr)
    (Sig : ScalarFuncSig) (ft : Option PbFieldType) (tps : List (Option FieldType))
    (sc : StatementContext) :
    PBToExpr E (.mk .Int64 Val Children Sig ft) tps sc = convertInt E Val := by
  simp only [PBToExpr]

theorem PBToExpr_Uint64 (E : Env) (Val : Bytes) (Children : List Expr)
    (Sig : ScalarFuncSig) (ft : Option PbFieldType) (tps : List (Option FieldType))
    (sc : StatementContext) :
    PBToExpr E (.mk .Uint64 Val Children Sig ft) tps sc = convertUint E Val := by
  simp only [PBToExpr]

theorem PBToExpr_ScalarFunc (E : Env) (Val : Bytes) (Children : List Expr)
    (Sig : ScalarFuncSig) (ft : Option PbFieldType) (tps : List (Option FieldType))
    (sc : StatementContext) :
    PBToExpr E (.mk .ScalarFunc Val Children Sig ft) tps sc =
      match PBToExpr.loop E Children tps sc [] with
      | .returned o => o
      | .args args => newDistSQLFunctionBySig E sc Sig ft args := by
  simp [PBToExpr]

theorem loop_returned_not_ok (E : Env) (tps : List (Option FieldType))
    (sc : StatementContext) (children : List Expr) :
    ∀ (args : List Expression) (o : Outcome Expression),
      (∀ child ∈ children, child.Tp = ExprType.ValueList →
        decodeValueList E child.Val ≠ .ok []) →
      PBToExpr.loop E children tps sc args = .returned o → ∀ x, o ≠ .ok x := by
  induction children with
  | nil => intro args o _ h; simp [PBToExpr.loop] at h
  | cons hd tl ih =>
    intro args o hvl h x
    rw [PBToExpr.loop] at h
    have hvl2 : ∀ child ∈ tl, child.Tp = ExprType.ValueList →
        decodeValueList E child.Val ≠ .ok [] :=
      fun c hc => hvl c (List.mem_cons_of_mem _ hc)
    by_cases hk : hd.Tp = ExprType.ValueList
    · have hne := hvl hd (List.mem_cons_self _ _) hk
      simp only [hk, if_true] at h
      cases hd2 : decodeValueList E hd.Val with
      | error err => rw [hd2] at h; simp at h; subst h; simp
      | panic p => rw [hd2] at h; simp at h; subst h; simp
      | ok results =>
        rw [hd2] at h
        cases results with
        | nil => exact absurd hd2 hne
        | cons r rs =>
          simp at h
          exact ih _ _ hvl2 h x
    · simp only [hk, if_false] at h
      cases hd2 : PBToExpr E hd tps sc with
      | error err => rw [hd2] at h; simp at h; subst h; simp
      | panic p => rw [hd2] at h; simp at h; subst h; simp
      | ok arg => rw [hd2] at h; simp at h; exact ih _ _ hvl2 h x

theorem loop_failing_child (E : Env) (tps : List (Option FieldType))
    (sc : StatementContext) (child : Expr) (hTp : child.Tp ≠ ExprType.ValueList)
    (hfail : ∀ x, PBToExpr E child tps sc ≠ .ok x) (children : List Expr) :
    ∀ (args : List Expression), child ∈ children →
      (∀ c ∈ children, c.Tp = ExprType.ValueList → decodeValueList E c.Val ≠ .ok []) →
      ∃ o, PBToExpr.loop E children tps sc args = .returned o ∧ ∀ x, o ≠ .ok x := by
  induction children with
  | nil => intro args hm; simp at hm
  | cons hd tl ih =>
    intro args hm hvl
    have hvl2 : ∀ c ∈ tl, c.Tp = ExprType.ValueList →
        decodeValueList E c.Val ≠ .ok [] :=
      fun c hc => hvl c (List.mem_cons_of_mem _ hc)
    rw [PBToExpr.loop]
    by_cases hk : hd.Tp = ExprType.ValueList
    · have hne := hvl hd (List.mem_cons_self _ _) hk
      have hmem : child ∈ tl := by
        rcases List.mem_cons.mp hm with h | h
        · subst h; exact absurd hk hTp
        · exact h
      simp only [hk, if_true]
      cases hd2 : decodeValueList E hd.Val with
      | error err => exact ⟨_, rfl, by simp⟩
      | panic p => exact ⟨_, rfl, by simp⟩
      | ok results =>
        cases results with
        | nil => exact absurd hd2 hne
        | cons r rs =>
          simp
          exact ih _ hmem hvl2
    · simp only [hk, if_false]
      cases hd2 : PBToExpr E hd tps sc with
      | error err => exact ⟨_, rfl, by simp⟩
      | panic p => exact ⟨_, rfl, by simp⟩
      | ok arg =>
        have hmem : child ∈ tl := by
          rcases List.mem_cons.mp hm with h | h
          · subst h; exact absurd hd2 (hfail arg)
          · exact h
        simp
        exact ih _ hmem hvl2

theorem unlisted_not_ok (E : Env) (tps : List (Option FieldType)) (sc : StatementContext)
    (e : Expr) (hbad : HasUnlistedSig e) :
    ValueListsNonEmpty E e → ∀ x, PBToExpr E e tps sc ≠ .ok x := by
  induction hbad with
  | here Val Children c ft =>
    intro hvl x
    rw [PBToExpr_ScalarFunc]
    cases hvl with
    | leaf _ _ _ _ _ h => exact absurd rfl h
    | func _ _ _ _ h1 h2 =>
      cases hl : PBToExpr.loop E Children tps sc [] with
      | returned o => simp; exact loop_returned_not_ok E tps sc Children [] o h1 hl x
      | args args =>
        simp
        cases ft with
        | none => simp [newDistSQLFunctionBySig, getSignatureByPB]
        | some t => simp [newDistSQLFunctionBySig, getSignatureByPB]
  | under Val Children Sig ft child hmem hTp _ ih =>
    intro hvl x
    rw [PBToExpr_ScalarFunc]
    cases hvl with
    | leaf _ _ _ _ _ h => exact absurd rfl h
    | func _ _ _ _ h1 h2 =>
      obtain ⟨o, ho, hno⟩ := loop_failing_child E tps sc child hTp (ih (h2 child hmem hTp))
        Children [] hmem h1
      rw [ho]
      exact hno x

theorem PBToExprs_loop_spec (E : Env) (tps : List (Option FieldType))
    (sc : StatementContext) (roots : List Expr) :
    ∀ acc : List Expression,
      PBToExprs.loop E roots tps sc acc =
        match shortCircuitTraversal E roots tps sc with
        | .error err => .error err
        | .panic p => .panic p
        | .ok es => .ok (acc ++ es) := by
  induction roots with
  | nil => intro acc; simp [PBToExprs.loop, shortCircuitTraversal]
  | cons r rest ih =>
    intro acc
    rw [PBToExprs.loop, shortCircuitTraversal]
    cases hr : PBToExpr E r tps sc with
    | error err => simp [Trace]
    | panic p => simp
    | ok e =>
      simp only []
      rw [ih]
      cases shortCircuitTraversal E rest tps sc with
      | error err => simp
      | panic p => simp
      | ok es => simp

theorem shortCircuitTraversal_all_ok (E : Env) (tps : List (Option FieldType))
    (sc : StatementContext) (roots : List Expr) (es : List Expression)
    (h : List.Forall₂ (fun r e => PBToExpr E r tps sc = .ok e) roots es) :
    shortCircuitTraversal E roots tps sc = .ok es := by
  induction h with
  | nil => simp [shortCircuitTraversal]
  | cons hre _ ih => rw [shortCircuitTraversal, hre]; simp only []; rw [ih]

theorem shortCircuitTraversal_first_error (E : Env) (tps : List (Option FieldType))
    (sc : StatementContext) (pre : List Expr) (es : List Expression) (r : Expr)
    (post : List Expr) (err : Error)
    (h : List.Forall₂ (fun r e => PBToExpr E r tps sc = .ok e) pre es)
    (hr : PBToExpr E r tps sc = .error err) :
    shortCircuitTraversal E (pre ++ r :: post) tps sc = .error err := by
  induction h with
  | nil => simp [shortCircuitTraversal, hr]
  | cons hre _ ih =>
    rw [List.cons_append, shortCircuitTraversal, hre]; simp only []; rw [ih]

/-! ## The dispatcher -/

/-- Claim C1: for every signature code of the dispatch table, every wire type descriptor
and every argument list, `getSignatureByPB` returns a function whose result type is the
translation of the descriptor, whose signature tag is the given code and whose arguments
are exactly the given ones, and `newDistSQLFunctionBySig` returns the `ScalarFunction`
built from that function, with the same result type. -/
theorem getSignatureByPB_accepted (E : Env) (ctx : Context) (sc : StatementContext)
    (sigCode : ScalarFuncSig) (t : PbFieldType) (args : List Expression)
    (h : ∀ c, sigCode ≠ ScalarFuncSig.unlisted c) :
    (∃ f, getSignatureByPB E ctx sigCode (some t) args = .ok f
      ∧ f.getRetTp = some (PbTypeToFieldType E t)
      ∧ f.PbCode = sigCode
      ∧ f.getArgs = args)
    ∧ (∃ f, newDistSQLFunctionBySig E sc sigCode (some t) args
          = .ok (.ScalarFunction ("sig_" ++ f.sig.typeName) f
              (some (PbTypeToFieldType E t)))
      ∧ getSignatureByPB E ⟨sc⟩ sigCode (some t) args = .ok f
      ∧ f.getRetTp = some (PbTypeToFieldType E t)
      ∧ f.PbCode = sigCode
      ∧ f.getArgs = args) := by
  cases sigCode
  case unlisted c => exact absurd rfl (h c)
  all_goals exact ⟨⟨_, rfl, rfl, rfl, rfl⟩, ⟨_, rfl, rfl, rfl, rfl, rfl⟩⟩

theorem getSignatureByPB_accepted_witness :
    (∀ c, ScalarFuncSig.LTInt ≠ ScalarFuncSig.unlisted c)
    ∧ (∃ f, getSignatureByPB sampleEnv ⟨sampleSc⟩ .LTInt (some samplePbType)
          [.Constant (.Int64 5) none] = .ok f
        ∧ f.getRetTp = some (PbTypeToFieldType sampleEnv samplePbType)
        ∧ f.PbCode = .LTInt
        ∧ f.getArgs = [.Constant (.Int64 5) none])
    ∧ (∃ f, newDistSQLFunctionBySig sampleEnv sampleSc .LTInt (some samplePbType)
            [.Constant (.Int64 5) none]
          = .ok (.ScalarFunction ("sig_" ++ f.sig.typeName) f
              (some (PbTypeToFieldType sampleEnv samplePbType)))
        ∧ getSignatureByPB sampleEnv ⟨sampleSc⟩ .LTInt (some samplePbType)
            [.Constant (.Int64 5) none] = .ok f
        ∧ f.getRetTp = some (PbTypeToFieldType sampleEnv samplePbType)
        ∧ f.PbCode = .LTInt
        ∧ f.getArgs = [.Constant (.Int64 5) none]) :=
  ⟨fun _ h => ScalarFuncSig.noConfusion h,
   getSignatureByPB_accepted sampleEnv ⟨sampleSc⟩ sampleSc .LTInt samplePbType
     [.Constant (.Int64 5) none] (fun _ h => ScalarFuncSig.noConfusion h)⟩

/-- Claim C2: for every signature code that is none of the cases of the dispatch table,
`getSignatureByPB` returns no function and the FunctionNotExists error carrying that
code, and `newDistSQLFunctionBySig` returns no expression and the same error. -/
theorem getSignatureByPB_unlisted (E : Env) (ctx : Context) (sc : StatementContext)
    (c : Int) (t : PbFieldType) (args : List Expression) :
    getSignatureByPB E ctx (.unlisted c) (some t) args
        = .error (.FunctionNotExists "FUNCTION" (.unlisted c))
      ∧ newDistSQLFunctionBySig E sc (.unlisted c) (some t) args
        = .error (.FunctionNotExists "FUNCTION" (.unlisted c)) :=
  ⟨rfl, rfl⟩

/-! ## The tree builder -/

/-- Claim C3, refuted as stated: under a function node whose first child is an empty
value list, a later function node with a code outside the dispatch table raises no
error; the root decodes to the constant false. -/
theorem PBToExpr_unlisted_sig_counterexample :
    HasUnlistedSig
        (.mk .ScalarFunc [] [.mk .ValueList [] [] (.unlisted 0) none,
            .mk .ScalarFunc [] [] (.unlisted 9999) (some samplePbType)]
          .LTInt (some samplePbType))
    ∧ PBToExpr sampleEnv
        (.mk .ScalarFunc [] [.mk .ValueList [] [] (.unlisted 0) none,
            .mk .ScalarFunc [] [] (.unlisted 9999) (some samplePbType)]
          .LTInt (some samplePbType)) [] sampleSc
      = .ok (.Constant (.Int64 0) (some (sampleEnv.NewFieldType 8)))
    ∧ ¬ ∃ err, PBToExpr sampleEnv
        (.mk .ScalarFunc [] [.mk .ValueList [] [] (.unlisted 0) none,
            .mk .ScalarFunc [] [] (.unlisted 9999) (some samplePbType)]
          .LTInt (some samplePbType)) [] sampleSc
      = .error err := by
  refine ⟨?_, rfl, ?_⟩
  · exact HasUnlistedSig.under _ _ _ _ (.mk .ScalarFunc [] [] (.unlisted 9999)
      (some samplePbType)) (by simp) (by simp [Expr.Tp]) (HasUnlistedSig.here _ _ _ _)
  · rintro ⟨err, h⟩
    have h2 : PBToExpr sampleEnv
        (.mk .ScalarFunc [] [.mk .ValueList [] [] (.unlisted 0) none,
            .mk .ScalarFunc [] [] (.unlisted 9999) (some samplePbType)]
          .LTInt (some samplePbType)) [] sampleSc
      = .ok (.Constant (.Int64 0) (some (sampleEnv.NewFieldType 8))) := rfl
    rw [h2] at h
    cases h

/-- Claim C3, amended: in a tree where no value-list child of a visited function node
decodes to zero elements and on which `PBToExpr` raises no panic, if a function node
reached from the root through children that are not value lists has a signature code
outside the dispatch table, then `PBToExpr` on the root returns an error and no
expression. -/
theorem PBToExpr_unlisted_sig_error (E : Env) (tps : List (Option FieldType))
    (sc : StatementContext) (e : Expr) (hbad : HasUnlistedSig e)
    (hvl : ValueListsNonEmpty E e) (hp : ∀ p, PBToExpr E e tps sc ≠ .panic p) :
    ∃ err, PBToExpr E e tps sc = .error err := by
  have hno := unlisted_not_ok E tps sc e hbad hvl
  cases h : PBToExpr E e tps sc with
  | ok x => exact absurd h (hno x)
  | panic p => exact absurd h (hp p)
  | error err => exact ⟨err, rfl⟩

theorem PBToExpr_unlisted_sig_error_witness :
    HasUnlistedSig sampleUnlistedTree
    ∧ ValueListsNonEmpty sampleEnv sampleUnlistedTree
    ∧ (∀ p, PBToExpr sampleEnv sampleUnlistedTree [] sampleSc ≠ .panic p)
    ∧ ∃ err, PBToExpr sampleEnv sampleUnlistedTree [] sampleSc = .error err := by
  have hbad : HasUnlistedSig sampleUnlistedTree :=
    HasUnlistedSig.under _ _ _ _ (.mk .ScalarFunc [] [] (.unlisted 9999)
      (some samplePbType)) (by simp) (by simp [Expr.Tp]) (HasUnlistedSig.here _ _ _ _)
  have hvl : ValueListsNonEmpty sampleEnv sampleUnlistedTree := by
    refine ValueListsNonEmpty.func _ _ _ _ ?_ ?_
    · intro child hc hTp
      simp at hc
      rcases hc with rfl | rfl <;> simp [Expr.Tp] at hTp
    · intro child hc _
      simp at hc
      rcases hc with rfl | rfl
      · exact ValueListsNonEmpty.leaf _ _ _ _ _ (by simp)
      · exact ValueListsNonEmpty.func _ _ _ _ (by simp) (by simp)
  have hp : ∀ p, PBToExpr sampleEnv sampleUnlistedTree [] sampleSc ≠ .panic p := by
    intro p h
    have h2 : PBToExpr sampleEnv sampleUnlistedTree [] sampleSc
        = .error (.FunctionNotExists "FUNCTION" (.unlisted 9999)) := rfl
    rw [h2] at h
    cases h
  exact ⟨hbad, hvl, hp, PBToExpr_unlisted_sig_error sampleEnv [] sampleSc sampleUnlistedTree
    hbad hvl hp⟩

/-- Claim C4, refuted as stated: a comparison whose single child is an empty value list
decodes to the bare constant false, which is not a function call. -/
theorem PBToExpr_empty_ValueList_counterexample :
    PBToExpr sampleEnv
        (.mk .ScalarFunc [] [.mk .ValueList [] [] (.unlisted 0) none] .LTInt
          (some samplePbType)) [] sampleSc
      = .ok (.Constant (.Int64 0) (some (sampleEnv.NewFieldType 8)))
    ∧ ¬ ∃ name f rt, PBToExpr sampleEnv
        (.mk .ScalarFunc [] [.mk .ValueList [] [] (.unlisted 0) none] .LTInt
          (some samplePbType)) [] sampleSc
      = .ok (.ScalarFunction name f rt) := by
  refine ⟨rfl, ?_⟩
  rintro ⟨name, f, rt, h⟩
  have h2 : PBToExpr sampleEnv
        (.mk .ScalarFunc [] [.mk .ValueList [] [] (.unlisted 0) none] .LTInt
          (some samplePbType)) [] sampleSc
      = .ok (.Constant (.Int64 0) (some (sampleEnv.NewFieldType 8))) := rfl
  rw [h2] at h
  cases h

/-- Claim C4, amended: for a function node, of a supported signature or any other, whose
single child is a value list with an empty payload, `PBToExpr` returns without error the
constant false of type Longlong itself as the result of the whole node; no function call
is built around it. -/
theorem PBToExpr_empty_ValueList (E : Env) (Val : Bytes) (Sig : ScalarFuncSig)
    (ft : Option PbFieldType) (ch : List Expr) (sg : ScalarFuncSig)
    (vft : Option PbFieldType) (tps : List (Option FieldType)) (sc : StatementContext) :
    PBToExpr E (.mk .ScalarFunc Val [.mk .ValueList [] ch sg vft] Sig ft) tps sc
      = .ok (.Constant (NewDatum false) (some (E.NewFieldType E.TypeLonglong))) := by
  rw [PBToExpr_ScalarFunc]
  simp [PBToExpr.loop, Expr.Tp, Expr.Val, decodeValueList]

/-- Claim C5: for every schema and every offset `k` inside it, `PBToExpr` on a ColumnRef
node whose payload is the ordered-integer encoding of `k` returns without error the
column with index `k` and the `k`-th type of the schema (the length of a Go slice is
below `2 ^ 63`). -/
theorem PBToExpr_ColumnRef_in_range (E : Env) (tps : List (Option FieldType)) (k : Nat)
    (ch : List Expr) (sg : ScalarFuncSig) (ft : Option PbFieldType)
    (sc : StatementContext) (hk : k < tps.length) (hlen : tps.length ≤ 2 ^ 63) :
    PBToExpr E (.mk .ColumnRef (EncodeInt k) ch sg ft) tps sc
      = .ok (.Column k tps[k]) := by
  have hdec := DecodeInt_EncodeInt (k : Int) (by omega) (by omega)
  have hint : int (k : Int) = k := by simp only [int]; omega
  rw [PBToExpr_ColumnRef, hdec]
  simp [hk, hint]

theorem PBToExpr_ColumnRef_in_range_witness :
    2 < [some (sampleEnv.NewFieldType 8), some (sampleEnv.NewFieldType 253),
          some (sampleEnv.NewFieldType 246)].length
    ∧ PBToExpr sampleEnv (.mk .ColumnRef (EncodeInt 2) [] (.unlisted 0) none)
        [some (sampleEnv.NewFieldType 8), some (sampleEnv.NewFieldType 253),
          some (sampleEnv.NewFieldType 246)] sampleSc
      = .ok (.Column 2 (some (sampleEnv.NewFieldType 246))) :=
  ⟨by decide,
   PBToExpr_ColumnRef_in_range sampleEnv
     [some (sampleEnv.NewFieldType 8), some (sampleEnv.NewFieldType 253),
       some (sampleEnv.NewFieldType 246)] 2 [] (.unlisted 0) none sampleSc
     (by decide) (by simp)⟩

/-- Claim C6, refuted as stated: offset 3 against a schema of length 3 makes `PBToExpr`
panic on the indexing; no error value is returned. -/
theorem PBToExpr_ColumnRef_out_of_range_counterexample :
    PBToExpr sampleEnv (.mk .ColumnRef (EncodeInt 3) [] (.unlisted 0) none)
        [some (sampleEnv.NewFieldType 8), some (sampleEnv.NewFieldType 253),
          some (sampleEnv.NewFieldType 246)] sampleSc
      = .panic (.indexOutOfRange 3 3)
    ∧ ¬ ∃ err, PBToExpr sampleEnv (.mk .ColumnRef (EncodeInt 3) [] (.unlisted 0) none)
        [some (sampleEnv.NewFieldType 8), some (sampleEnv.NewFieldType 253),
          some (sampleEnv.NewFieldType 246)] sampleSc
      = .error err := by
  refine ⟨rfl, ?_⟩
  rintro ⟨err, h⟩
  have h2 : PBToExpr sampleEnv (.mk .ColumnRef (EncodeInt 3) [] (.unlisted 0) none)
        [some (sampleEnv.NewFieldType 8), some (sampleEnv.NewFieldType 253),
          some (sampleEnv.NewFieldType 246)] sampleSc
      = .panic (.indexOutOfRange 3 3) := rfl
  rw [h2] at h
  cases h

/-- Claim C6, amended: for every schema of length `n` and every decoded offset `k` with
`k < 0` or `k >= n`, `PBToExpr` on the ColumnRef node returns neither an expression nor
an error value: the indexing of the schema raises an index-out-of-range panic. -/
theorem PBToExpr_ColumnRef_out_of_range (E : Env) (tps : List (Option FieldType))
    (Val rest : Bytes) (k : Int) (ch : List Expr) (sg : ScalarFuncSig)
    (ft : Option PbFieldType) (sc : StatementContext)
    (hdec : DecodeInt Val = (rest, k, none)) (hout : k < 0 ∨ (tps.length : Int) ≤ k) :
    PBToExpr E (.mk .ColumnRef Val ch sg ft) tps sc
      = .panic (.indexOutOfRange k tps.length) := by
  rw [PBToExpr_ColumnRef, hdec]
  by_cases h0 : 0 ≤ k
  · have hge : tps.length ≤ k.toNat := by omega
    simp [h0, List.getElem?_eq_none hge]
  · simp [h0]

theorem PBToExpr_ColumnRef_out_of_range_witness :
    DecodeInt (EncodeInt (-1)) = ([], -1, none)
    ∧ ((-1 : Int) < 0 ∨ (([] : List (Option FieldType)).length : Int) ≤ -1)
    ∧ PBToExpr sampleEnv (.mk .ColumnRef (EncodeInt (-1)) [] (.unlisted 0) none) [] sampleSc
      = .panic (.indexOutOfRange (-1) ([] : List (Option FieldType)).length) :=
  ⟨rfl, Or.inl (by decide),
   PBToExpr_ColumnRef_out_of_range sampleEnv [] (EncodeInt (-1)) [] (-1) [] (.unlisted 0)
     none sampleSc rfl (Or.inl (by decide))⟩


/-- Claim C7: `PBToExprs` is the short-circuiting left-to-right traversal of `PBToExpr`:
when every root decodes, the result is the list of the decoded expressions, of the same
length and in the order of the roots, with no error; when a root fails after the roots
before it decoded, the result is the error of that first failing root and no
expressions. -/
theorem PBToExprs_short_circuit (E : Env) (tps : List (Option FieldType))
    (sc : StatementContext) (roots : List Expr) :
    PBToExprs E roots tps sc = shortCircuitTraversal E roots tps sc
    ∧ (∀ es, List.Forall₂ (fun r e => PBToExpr E r tps sc = .ok e) roots es →
        PBToExprs E roots tps sc = .ok es ∧ es.length = roots.length)
    ∧ (∀ pre es r post err, roots = pre ++ r :: post →
        List.Forall₂ (fun r e => PBToExpr E r tps sc = .ok e) pre es →
        PBToExpr E r tps sc = .error err →
        PBToExprs E roots tps sc = .error err) := by
  have heq : PBToExprs E roots tps sc = shortCircuitTraversal E roots tps sc := by
    rw [PBToExprs, PBToExprs_loop_spec]
    cases shortCircuitTraversal E roots tps sc <;> simp
  refine ⟨heq, ?_, ?_⟩
  · intro es h
    exact ⟨by rw [heq, shortCircuitTraversal_all_ok E tps sc roots es h], h.length_eq.symm⟩
  · intro pre es r post err hroots h hr
    rw [heq, hroots, shortCircuitTraversal_first_error E tps sc pre es r post err h hr]

theorem PBToExprs_short_circuit_witness :
    PBToExprs sampleEnv
        [.mk .Int64 (EncodeInt 5) [] (.unlisted 0) none,
         .mk .Int64 [1, 2, 3] [] (.unlisted 0) none,
         .mk .Int64 (EncodeInt 7) [] (.unlisted 0) none] [] sampleSc
      = .error (.invalidInt [1, 2, 3]) :=
  (PBToExprs_short_circuit sampleEnv [] sampleSc
      [.mk .Int64 (EncodeInt 5) [] (.unlisted 0) none,
       .mk .Int64 [1, 2, 3] [] (.unlisted 0) none,
       .mk .Int64 (EncodeInt 7) [] (.unlisted 0) none]).2.2
    [.mk .Int64 (EncodeInt 5) [] (.unlisted 0) none]
    [.Constant (.Int64 5) (some (sampleEnv.NewFieldType 8))]
    (.mk .Int64 [1, 2, 3] [] (.unlisted 0) none)
    [.mk .Int64 (EncodeInt 7) [] (.unlisted 0) none]
    (.invalidInt [1, 2, 3]) rfl (List.Forall₂.cons rfl List.Forall₂.nil) rfl

/-! ## The leaf converters -/

/-- Claim C8: for every signed 64-bit integer `x`, an Int64 node whose payload is the
fixed-width ordered encoding of `x` decodes to the constant of value `x` and type
Longlong; for every unsigned 64-bit integer `u`, a Uint64 node whose payload is the
fixed-width encoding of `u` decodes to the constant of value `u` and type Longlong with
the unsigned flag. -/
theorem convertInt_EncodeInt (E : Env) (x : Int) (u : Nat) (ch : List Expr)
    (sg : ScalarFuncSig) (ft : Option PbFieldType) (tps : List (Option FieldType))
    (sc : StatementContext) (hlo : -2 ^ 63 ≤ x) (hhi : x < 2 ^ 63) (hu : u < 2 ^ 64) :
    convertInt E (EncodeInt x)
        = .ok (.Constant (.Int64 x) (some (E.NewFieldType E.TypeLonglong)))
    ∧ PBToExpr E (.mk .Int64 (EncodeInt x) ch sg ft) tps sc
        = .ok (.Constant (.Int64 x) (some (E.NewFieldType E.TypeLonglong)))
    ∧ convertUint E (EncodeUint u)
        = .ok (.Constant (.Uint64 u)
            (some { Tp := E.TypeLonglong, Flag := E.UnsignedFlag, Flen := 0, Decimal := 0,
                    Charset := "", Collate := "" }))
    ∧ PBToExpr E (.mk .Uint64 (EncodeUint u) ch sg ft) tps sc
        = .ok (.Constant (.Uint64 u)
            (some { Tp := E.TypeLonglong, Flag := E.UnsignedFlag, Flen := 0, Decimal := 0,
                    Charset := "", Collate := "" })) := by
  have h1 : convertInt E (EncodeInt x)
      = .ok (.Constant (.Int64 x) (some (E.NewFieldType E.TypeLonglong))) := by
    rw [convertInt, DecodeInt_EncodeInt x hlo hhi]
  have h2 : convertUint E (EncodeUint u)
      = .ok (.Constant (.Uint64 u)
          (some { Tp := E.TypeLonglong, Flag := E.UnsignedFlag, Flen := 0, Decimal := 0,
                  Charset := "", Collate := "" })) := by
    rw [convertUint, DecodeUint_EncodeUint u hu]
  exact ⟨h1, by rw [PBToExpr_Int64, h1], h2, by rw [PBToExpr_Uint64, h2]⟩

theorem convertInt_EncodeInt_witness :
    (-2 ^ 63 ≤ (-5 : Int)) ∧ ((-5 : Int) < 2 ^ 63) ∧ (18446744073709551615 < 2 ^ 64)
    ∧ convertInt sampleEnv (EncodeInt (-5))
        = .ok (.Constant (.Int64 (-5)) (some (sampleEnv.NewFieldType 8)))
    ∧ convertUint sampleEnv (EncodeUint 18446744073709551615)
        = .ok (.Constant (.Uint64 18446744073709551615)
            (some { Tp := 8, Flag := 32, Flen := 0, Decimal := 0, Charset := "",
                    Collate := "" })) :=
  have h := convertInt_EncodeInt sampleEnv (-5) 18446744073709551615 [] (.unlisted 0) none
    [] sampleSc (by decide) (by decide) (by decide)
  ⟨by decide, by decide, by decide, h.1, h.2.2.1⟩

/-- Claim C9: for every payload shorter than the eight bytes of the fixed-width integer
encoding, the empty payload included, an Int64 node and a Uint64 node are rejected:
`convertInt` and `convertUint` return an error and no constant. -/
theorem convertInt_short (E : Env) (val : Bytes) (ch : List Expr) (sg : ScalarFuncSig)
    (ft : Option PbFieldType) (tps : List (Option FieldType)) (sc : StatementContext)
    (h : val.length < 8) :
    convertInt E val = .error (.invalidInt val)
    ∧ convertUint E val = .error (.invalidUint val)
    ∧ PBToExpr E (.mk .Int64 val ch sg ft) tps sc = .error (.invalidInt val)
    ∧ PBToExpr E (.mk .Uint64 val ch sg ft) tps sc = .error (.invalidUint val) := by
  have h1 : convertInt E val = .error (.invalidInt val) := by
    rw [convertInt, DecodeInt_short val h]
  have h2 : convertUint E val = .error (.invalidUint val) := by
    rw [convertUint, DecodeUint_short val h]
  exact ⟨h1, h2, by rw [PBToExpr_Int64, h1], by rw [PBToExpr_Uint64, h2]⟩

theorem convertInt_short_witness :
    ([] : Bytes).length < 8
    ∧ convertInt sampleEnv [] = .error (.invalidInt [])
    ∧ convertUint sampleEnv [] = .error (.invalidUint []) :=
  have h := convertInt_short sampleEnv [] [] (.unlisted 0) none [] sampleSc (by decide)
  ⟨by decide, h.1, h.2.1⟩

/-! ## The type descriptor translator -/

/-- Claim C10, refuted as stated: collation identifier 200 is not a key of the sample
table, and `PbTypeToFieldType` returns a descriptor whose collation name is empty. -/
theorem PbTypeToFieldType_absent_collation_counterexample :
    sampleEnv.Collations 200 = none
    ∧ (PbTypeToFieldType sampleEnv
        { Tp := 8, Flag := 0, Flen := 20, Decimal := 0, Charset := "utf8", Collate := 200 })
      = { Tp := 8, Flag := 0, Flen := 20, Decimal := 0, Charset := "utf8", Collate := "" } := by
  decide

/-- Claim C10, amended: for every wire type descriptor whose collation identifier,
reduced to its low eight bits, is not a key of the collation table, `PbTypeToFieldType`
raises no error: it returns an internal type descriptor whose collation name is the
empty string. -/
theorem PbTypeToFieldType_absent_collation (E : Env) (tp : PbFieldType)
    (h : E.Collations (byte tp.Collate) = none) :
    (PbTypeToFieldType E tp).Collate = "" := by
  simp [PbTypeToFieldType, mapIndex, h]

theorem PbTypeToFieldType_absent_collation_witness :
    sampleEnv.Collations (byte 200) = none
    ∧ (PbTypeToFieldType sampleEnv
        { Tp := 8, Flag := 0, Flen := 20, Decimal := 0, Charset := "utf8",
          Collate := 200 }).Collate = "" :=
  ⟨by decide, PbTypeToFieldType_absent_collation sampleEnv
    { Tp := 8, Flag := 0, Flen := 20, Decimal := 0, Charset := "utf8", Collate := 200 }
    (by decide)⟩

/-- Claim C11, refuted as stated: a wire descriptor with collation identifier 289, for
which the table has no entry, is given the collation of identifier 33, its low eight
bits; and a wire descriptor with type code 300 is translated to type code 44. -/
theorem PbTypeToFieldType_fields_counterexample :
    (PbTypeToFieldType sampleEnv
        { Tp := 8, Flag := 0, Flen := 20, Decimal := 0, Charset := "utf8", Collate := 289 })
      = { Tp := 8, Flag := 0, Flen := 20, Decimal := 0, Charset := "utf8",
          Collate := "utf8_general_ci" }
    ∧ sampleEnv.Collations 289 = none
    ∧ sampleEnv.Collations 33 = some "utf8_general_ci"
    ∧ (PbTypeToFieldType sampleEnv
        { Tp := 300, Flag := 0, Flen := 20, Decimal := 0, Charset := "utf8", Collate := 63 })
      = { Tp := 44, Flag := 0, Flen := 20, Decimal := 0, Charset := "utf8",
          Collate := "binary" } := by
  decide

/-- Claim C11, amended: for every wire type descriptor whose type code lies in 0..255,
whose flags fit an unsigned 64-bit word and whose length and decimal-digit count fit a
signed 64-bit word, the internal descriptor has type code, flags, length, decimal-digit
count and charset equal to those of the input; its collation is the table entry of the
low eight bits of the input's collation identifier, and the empty name when the table
has no such entry. -/
theorem PbTypeToFieldType_fields (E : Env) (tp : PbFieldType)
    (hTp0 : 0 ≤ tp.Tp) (hTp1 : tp.Tp < 256) (hFlag : tp.Flag < 2 ^ 64)
    (hFlen0 : -2 ^ 63 ≤ tp.Flen) (hFlen1 : tp.Flen < 2 ^ 63)
    (hDec0 : -2 ^ 63 ≤ tp.Decimal) (hDec1 : tp.Decimal < 2 ^ 63) :
    ((PbTypeToFieldType E tp).Tp : Int) = tp.Tp
    ∧ (PbTypeToFieldType E tp).Flag = tp.Flag
    ∧ (PbTypeToFieldType E tp).Flen = tp.Flen
    ∧ (PbTypeToFieldType E tp).Decimal = tp.Decimal
    ∧ (PbTypeToFieldType E tp).Charset = tp.Charset
    ∧ (PbTypeToFieldType E tp).Collate
        = (E.Collations (tp.Collate % 256).toNat).getD "" := by
  refine ⟨?_, ?_, ?_, ?_, rfl, ?_⟩
  · simp only [PbTypeToFieldType, byte]; omega
  · simp only [PbTypeToFieldType, uint]; omega
  · simp only [PbTypeToFieldType, int]; omega
  · simp only [PbTypeToFieldType, int]; omega
  · simp only [PbTypeToFieldType, mapIndex, byte]
    cases E.Collations (tp.Collate % 256).toNat <;> rfl

theorem PbTypeToFieldType_fields_witness :
    ((PbTypeToFieldType sampleEnv samplePbType).Tp : Int) = 8
    ∧ (PbTypeToFieldType sampleEnv samplePbType).Flag = 0
    ∧ (PbTypeToFieldType sampleEnv samplePbType).Flen = 20
    ∧ (PbTypeToFieldType sampleEnv samplePbType).Decimal = 0
    ∧ (PbTypeToFieldType sampleEnv samplePbType).Charset = "binary"
    ∧ (PbTypeToFieldType sampleEnv samplePbType).Collate
        = (sampleEnv.Collations ((63 : Int) % 256).toNat).getD "" :=
  PbTypeToFieldType_fields sampleEnv samplePbType (by decide) (by decide) (by decide)
    (by decide) (by decide) (by decide) (by decide)

/-- Claim C13, refuted as stated: a value-list root makes `PBToExpr` panic; no error
value is returned. -/
theorem PBToExpr_other_kind_counterexample :
    PBToExpr sampleEnv (.mk .ValueList [] [] (.unlisted 0) none) [] sampleSc
      = .panic (.message "should be a tipb.ExprType_ScalarFunc")
    ∧ ¬ ∃ err, PBToExpr sampleEnv (.mk .ValueList [] [] (.unlisted 0) none) [] sampleSc
      = .error err := by
  refine ⟨rfl, ?_⟩
  rintro ⟨err, h⟩
  have h2 : PBToExpr sampleEnv (.mk .ValueList [] [] (.unlisted 0) none) [] sampleSc
      = .panic (.message "should be a tipb.ExprType_ScalarFunc") := rfl
  rw [h2] at h
  cases h

/-- Claim C13, amended: for every node whose kind is neither one of the leaf kinds
handled by `PBToExpr` nor ScalarFunc (a value-list root, or an unknown kind code),
`PBToExpr` panics with the message "should be a tipb.ExprType_ScalarFunc": it returns
neither an expression nor an error value. -/
theorem PBToExpr_other_kind (E : Env) (Tp : ExprType) (Val : Bytes) (ch : List Expr)
    (sg : ScalarFuncSig) (ft : Option PbFieldType) (tps : List (Option FieldType))
    (sc : StatementContext) (h : Tp = ExprType.ValueList ∨ ∃ c, Tp = ExprType.unlisted c) :
    PBToExpr E (.mk Tp Val ch sg ft) tps sc
      = .panic (.message "should be a tipb.ExprType_ScalarFunc") := by
  rcases h with rfl | ⟨c, rfl⟩ <;> simp [PBToExpr]

theorem PBToExpr_other_kind_witness :
    (ExprType.unlisted 9999 = ExprType.ValueList ∨ ∃ c, ExprType.unlisted 9999 = ExprType.unlisted c)
    ∧ PBToExpr sampleEnv (.mk (.unlisted 9999) [1] [] .LTInt (some samplePbType)) []
        sampleSc
      = .panic (.message "should be a tipb.ExprType_ScalarFunc") :=
  ⟨Or.inr ⟨9999, rfl⟩,
   PBToExpr_other_kind sampleEnv (.unlisted 9999) [1] [] .LTInt (some samplePbType) []
     sampleSc (Or.inr ⟨9999, rfl⟩)⟩

/-- Claim C14: for every Decimal payload on which the decimal decoder reports an error,
`convertDecimal` returns an error and no constant, whatever decimal value, precision or
scale the decoder handed back; when the decoder reports none, the constant holds the
decoded decimal with the precision and the scale of the encoding and has the decimal
type. -/
theorem convertDecimal_spec (E : Env) (val rest : Bytes) (dec : Option MyDecimal)
    (precision frac : Int) (err : Option Error)
    (hdec : E.DecodeDecimal val = (rest, dec, precision, frac, err)) :
    (err ≠ none → convertDecimal E val = .error (.invalidDecimal val))
    ∧ (err = none → convertDecimal E val
        = .ok (.Constant (.MysqlDecimal dec precision frac)
            (some (E.NewFieldType E.TypeNewDecimal)))) := by
  cases err with
  | none => simp [convertDecimal, hdec]
  | some e => simp [convertDecimal, hdec]

theorem convertDecimal_spec_witness :
    sampleCodecEnv.DecodeDecimal [10, 2]
        = ([], some ⟨0, 2⟩, 10, 2, some (.library "insufficient bytes to decode value"))
    ∧ convertDecimal sampleCodecEnv [10, 2] = .error (.invalidDecimal [10, 2])
    ∧ sampleCodecEnv.DecodeDecimal [10, 2, 5] = ([], some ⟨5, 2⟩, 10, 2, none)
    ∧ convertDecimal sampleCodecEnv [10, 2, 5]
        = .ok (.Constant (.MysqlDecimal (some ⟨5, 2⟩) 10 2)
            (some (sampleCodecEnv.NewFieldType 246))) :=
  ⟨rfl,
   (convertDecimal_spec sampleCodecEnv [10, 2] [] (some ⟨0, 2⟩) 10 2
      (some (.library "insufficient bytes to decode value")) rfl).1 (by simp),
   rfl,
   (convertDecimal_spec sampleCodecEnv [10, 2, 5] [] (some ⟨5, 2⟩) 10 2 none rfl).2 rfl⟩

/-- Claim C12: once the payload is decoded and unpacked, `convertTime` applies the
conversion from UTC to the session time zone exactly once when the translated type is
the timestamp type and the session time zone is not UTC; in every other case it applies
none: the time of the constant is the unpacked value, for every session time zone. -/
theorem convertTime_conversion (E : Env) (data rest : Bytes) (ftPB : PbFieldType)
    (tz : Location) (v : Nat) (t : Time)
    (hdec : DecodeUint data = (rest, v, none))
    (hun : E.FromPackedUint
        { core := ⟨0, 0, 0, 0, 0, 0, 0⟩, Type_ := (PbTypeToFieldType E ftPB).Tp,
          Fsp := int8 (PbTypeToFieldType E ftPB).Decimal } v = (t, none)) :
    ((PbTypeToFieldType E ftPB).Tp = E.TypeTimestamp → tz ≠ Location.UTC →
      convertTime E data (some ftPB) tz =
        match E.ConvertTimeZone t Location.UTC tz with
        | (_, some err) => .error err
        | (t2, none) => .ok (.Constant (.MysqlTime t2) (some (PbTypeToFieldType E ftPB))))
    ∧ ((PbTypeToFieldType E ftPB).Tp ≠ E.TypeTimestamp ∨ tz = Location.UTC →
      convertTime E data (some ftPB) tz
        = .ok (.Constant (.MysqlTime t) (some (PbTypeToFieldType E ftPB)))) := by
  constructor
  · intro h1 h2
    simp only [convertTime, hdec, hun]
    simp [h1, h2]
  · intro h
    simp only [convertTime, hdec, hun]
    rcases h with h | h
    · simp [h]
    · simp [h]

theorem convertTime_conversion_witness :
    DecodeUint (EncodeUint 1847958199433428992) = ([], 1847958199433428992, none)
    ∧ convertTime sampleCodecEnv (EncodeUint 1847958199433428992)
        (some { Tp := 7, Flag := 0, Flen := 19, Decimal := 0, Charset := "", Collate := 63 })
        (.other 8)
      = .ok (.Constant (.MysqlTime { core := ⟨2020, 1, 2, 11, 4, 5, 0⟩, Type_ := 7, Fsp := 0 })
          (some { Tp := 7, Flag := 0, Flen := 19, Decimal := 0, Charset := "",
                  Collate := "binary" }))
    ∧ convertTime sampleCodecEnv (EncodeUint 1847958199433428992)
        (some { Tp := 12, Flag := 0, Flen := 19, Decimal := 0, Charset := "", Collate := 63 })
        (.other 8)
      = .ok (.Constant (.MysqlTime { core := ⟨2020, 1, 2, 3, 4, 5, 0⟩, Type_ := 12, Fsp := 0 })
          (some { Tp := 12, Flag := 0, Flen := 19, Decimal := 0, Charset := "",
                  Collate := "binary" })) :=
  ⟨rfl,
   (convertTime_conversion sampleCodecEnv (EncodeUint 1847958199433428992) []
      { Tp := 7, Flag := 0, Flen := 19, Decimal := 0, Charset := "", Collate := 63 }
      (.other 8) 1847958199433428992
      { core := ⟨2020, 1, 2, 3, 4, 5, 0⟩, Type_ := 7, Fsp := 0 } rfl rfl).1 rfl
      (by decide),
   (convertTime_conversion sampleCodecEnv (EncodeUint 1847958199433428992) []
      { Tp := 12, Flag := 0, Flen := 19, Decimal := 0, Charset := "", Collate := 63 }
      (.other 8) 1847958199433428992
      { core := ⟨2020, 1, 2, 3, 4, 5, 0⟩, Type_ := 12, Fsp := 0 } rfl rfl).2
      (Or.inl (by decide))⟩

theorem getSignatureByPB_listed (E : Env) (ctx : Context) (t : PbFieldType)
    (args : List Expression) (c : ScalarFuncSig) (h : ∀ n, c ≠ ScalarFuncSig.unlisted n) :
    ∃ v, getSignatureByPB E ctx c (some t) args
        = .ok (.mk v (.mk args ctx (some (PbTypeToFieldType E t)) c))
      ∧ v.caseOf = c ∧ c.operator = some v.operator ∧ c.argType = v.argType := by
  cases c
  case unlisted n => exact absurd rfl (h n)
  all_goals exact ⟨_, rfl, rfl, rfl, rfl⟩

theorem getSignatureByPB_ok_listed (E : Env) (ctx : Context) (t : PbFieldType)
    (args : List Expression) (c : ScalarFuncSig) (f : builtinFunc)
    (h : getSignatureByPB E ctx c (some t) args = .ok f) :
    ∀ n, c ≠ ScalarFuncSig.unlisted n := by
  intro n hc
  subst hc
  have h2 : getSignatureByPB E ctx (.unlisted n) (some t) args
      = .error (.FunctionNotExists "FUNCTION" (.unlisted n)) := rfl
  rw [h2] at h
  cases h

theorem getSignatureByPB_ok_sig (E : Env) (ctx : Context) (t : PbFieldType)
    (args : List Expression) (c : ScalarFuncSig) (f : builtinFunc)
    (h : getSignatureByPB E ctx c (some t) args = .ok f) :
    f.sig.caseOf = c ∧ c.operator = some f.sig.operator ∧ c.argType = f.sig.argType := by
  obtain ⟨v, hv, h1, h2, h3⟩ :=
    getSignatureByPB_listed E ctx t args c (getSignatureByPB_ok_listed E ctx t args c f h)
  rw [hv] at h
  cases h
  exact ⟨h1, h2, h3⟩

theorem arithmeticCases_spec (E : Env) (ctx : Context) (t : PbFieldType)
    (args : List Expression) (c : ScalarFuncSig) :
    ((∃ f, getSignatureByPB E ctx c (some t) args = .ok f) ∧ c.isArithmetic = true)
      ↔ c ∈ arithmeticCases := by
  constructor
  · rintro ⟨⟨f, hf⟩, ha⟩
    have hl := getSignatureByPB_ok_listed E ctx t args c f hf
    cases c
    case unlisted n => exact absurd rfl (hl n)
    all_goals first
      | (simp [arithmeticCases]; done)
      | (simp [ScalarFuncSig.isArithmetic, ScalarFuncSig.operator, Operator.isArithmetic] at ha)
  · intro hm
    simp only [arithmeticCases, List.mem_cons, List.mem_singleton, List.not_mem_nil,
      or_false] at hm
    rcases hm with rfl | rfl | rfl | rfl | rfl | rfl | rfl | rfl | rfl | rfl | rfl | rfl <;>
      exact ⟨⟨_, rfl⟩, rfl⟩

theorem arithmeticCases_nodup : arithmeticCases.Nodup := by
  simp [arithmeticCases]

theorem no_divide_int (E : Env) (ctx : Context) (t : PbFieldType)
    (args : List Expression) :
    ¬ ∃ c f, getSignatureByPB E ctx c (some t) args = .ok f
      ∧ c.operator = some Operator.Divide ∧ c.argType = some ArgType.Int := by
  rintro ⟨c, f, hf, hop, hty⟩
  have hl := getSignatureByPB_ok_listed E ctx t args c f hf
  cases c
  case unlisted n => exact absurd rfl (hl n)
  all_goals first
    | (simp [ScalarFuncSig.operator] at hop; done)
    | (simp [ScalarFuncSig.argType] at hty)

/-- Claim C15, refuted as stated: the arithmetic codes the dispatcher accepts are the
twelve codes of `arithmeticCases`, not eleven, and none of them is a division on
integers. -/
theorem arithmetic_codes_counterexample :
    (∀ c, ((∃ f, getSignatureByPB sampleEnv ⟨sampleSc⟩ c (some samplePbType) [] = .ok f)
        ∧ c.isArithmetic = true) ↔ c ∈ arithmeticCases)
    ∧ arithmeticCases.Nodup
    ∧ arithmeticCases.length = 12
    ∧ ¬ ∃ c f, getSignatureByPB sampleEnv ⟨sampleSc⟩ c (some samplePbType) [] = .ok f
        ∧ c.operator = some Operator.Divide ∧ c.argType = some ArgType.Int :=
  ⟨arithmeticCases_spec sampleEnv ⟨sampleSc⟩ samplePbType [], arithmeticCases_nodup, rfl,
   no_divide_int sampleEnv ⟨sampleSc⟩ samplePbType []⟩

/-- Claim C15, amended: the dispatcher accepts an arithmetic signature code for every
combination of operator in plus, minus, multiply, divide and argument type in real,
decimal, integer except divide on integers, for which it accepts none, plus one
unsigned-integer multiply variant; the arithmetic codes it accepts are exactly the 12
distinct codes of `arithmeticCases`. -/
theorem arithmetic_codes (E : Env) (ctx : Context) (t : PbFieldType)
    (args : List Expression) :
    (∀ op ty, op ∈ [Operator.Plus, Operator.Minus, Operator.Multiply, Operator.Divide] →
        ty ∈ [ArgType.Real, ArgType.Decimal, ArgType.Int] →
        (op, ty) ≠ (Operator.Divide, ArgType.Int) →
        ∃ c f, getSignatureByPB E ctx c (some t) args = .ok f
          ∧ c.operator = some op ∧ c.argType = some ty)
    ∧ (¬ ∃ c f, getSignatureByPB E ctx c (some t) args = .ok f
        ∧ c.operator = some Operator.Divide ∧ c.argType = some ArgType.Int)
    ∧ (∃ f, getSignatureByPB E ctx .MultiplyIntUnsigned (some t) args = .ok f
        ∧ ScalarFuncSig.MultiplyIntUnsigned.operator = some Operator.Multiply
        ∧ ScalarFuncSig.MultiplyIntUnsigned.argType = some ArgType.IntUnsigned)
    ∧ (∀ c, ((∃ f, getSignatureByPB E ctx c (some t) args = .ok f)
        ∧ c.isArithmetic = true) ↔ c ∈ arithmeticCases)
    ∧ arithmeticCases.Nodup
    ∧ arithmeticCases.length = 12 := by
  refine ⟨?_, no_divide_int E ctx t args, ⟨_, rfl, rfl, rfl⟩,
    arithmeticCases_spec E ctx t args, arithmeticCases_nodup, rfl⟩
  intro op ty hop hty hne
  simp only [List.mem_cons, List.mem_singleton, List.not_mem_nil, or_false] at hop hty
  rcases hop with rfl | rfl | rfl | rfl <;> rcases hty with rfl | rfl | rfl
  · exact ⟨.PlusReal, _, rfl, rfl, rfl⟩
  · exact ⟨.PlusDecimal, _, rfl, rfl, rfl⟩
  · exact ⟨.PlusInt, _, rfl, rfl, rfl⟩
  · exact ⟨.MinusReal, _, rfl, rfl, rfl⟩
  · exact ⟨.MinusDecimal, _, rfl, rfl, rfl⟩
  · exact ⟨.MinusInt, _, rfl, rfl, rfl⟩
  · exact ⟨.MultiplyReal, _, rfl, rfl, rfl⟩
  · exact ⟨.MultiplyDecimal, _, rfl, rfl, rfl⟩
  · exact ⟨.MultiplyInt, _, rfl, rfl, rfl⟩
  · exact ⟨.DivideReal, _, rfl, rfl, rfl⟩
  · exact ⟨.DivideDecimal, _, rfl, rfl, rfl⟩
  · exact absurd rfl hne

/-- Claim C16: the dispatch is one-to-one on its domain: every accepted signature code
yields exactly one function variant, that variant is the one specialised to the
operator and the argument type of the code (LTInt gives the less-than-on-integers
variant), and two accepted codes that yield the same variant are the same code. -/
theorem dispatch_one_to_one (E : Env) (ctx : Context) (t : PbFieldType)
    (args : List Expression) :
    (∀ c, (∀ n, c ≠ ScalarFuncSig.unlisted n) →
        ∃! f, getSignatureByPB E ctx c (some t) args = .ok f)
    ∧ (∀ c f, getSignatureByPB E ctx c (some t) args = .ok f →
        c.operator = some f.sig.operator ∧ c.argType = f.sig.argType)
    ∧ (∃ f, getSignatureByPB E ctx .LTInt (some t) args = .ok f
        ∧ f.sig = BuiltinSig.builtinLTIntSig
        ∧ f.sig.operator = Operator.LT ∧ f.sig.argType = some ArgType.Int)
    ∧ (∀ c₁ c₂ f₁ f₂ ctx₂ t₂ args₂, getSignatureByPB E ctx c₁ (some t) args = .ok f₁ →
        getSignatureByPB E ctx₂ c₂ (some t₂) args₂ = .ok f₂ → f₁.sig = f₂.sig →
        c₁ = c₂) := by
  refine ⟨?_, ?_, ⟨_, rfl, rfl, rfl, rfl⟩, ?_⟩
  · intro c hc
    obtain ⟨v, hv, -⟩ := getSignatureByPB_listed E ctx t args c hc
    refine ⟨_, hv, ?_⟩
    intro f hf
    rw [hv] at hf
    cases hf
    rfl
  · intro c f hf
    exact (getSignatureByPB_ok_sig E ctx t args c f hf).2
  · intro c₁ c₂ f₁ f₂ ctx₂ t₂ args₂ h₁ h₂ hs
    have e₁ := (getSignatureByPB_ok_sig E ctx t args c₁ f₁ h₁).1
    have e₂ := (getSignatureByPB_ok_sig E ctx₂ t₂ args₂ c₂ f₂ h₂).1
    rw [← e₁, ← e₂, hs]

/-- Claim C17, refuted as stated: with the MySQL type codes, the constant of a Bytes
node has the type code of `mysql.TypeString` (254), which is not the variable-length
string type `mysql.TypeVarString` (253) that a String node gets. -/
theorem PBToExpr_Bytes_counterexample :
    PBToExpr sampleEnv (.mk .Bytes [104, 105] [] (.unlisted 0) none) [] sampleSc
      = .ok (.Constant (.Bytes [104, 105]) (some (sampleEnv.NewFieldType 254)))
    ∧ PBToExpr sampleEnv (.mk .String [104, 105] [] (.unlisted 0) none) [] sampleSc
      = .ok (.Constant (.String [104, 105]) (some (sampleEnv.NewFieldType 253)))
    ∧ sampleEnv.TypeVarString = 253
    ∧ ¬ (PBToExpr sampleEnv (.mk .Bytes [104, 105] [] (.unlisted 0) none) [] sampleSc
      = .ok (.Constant (.Bytes [104, 105])
          (some (sampleEnv.NewFieldType sampleEnv.TypeVarString)))) := by
  refine ⟨rfl, rfl, rfl, ?_⟩
  intro h
  have h2 : PBToExpr sampleEnv (.mk .Bytes [104, 105] [] (.unlisted 0) none) [] sampleSc
      = .ok (.Constant (.Bytes [104, 105]) (some (sampleEnv.NewFieldType 254))) := rfl
  rw [h2] at h
  simp [sampleEnv] at h

/-- Claim C17, amended: for every payload, a Bytes node decodes without error to a
constant whose value is the payload byte for byte, of bytes kind, and whose type is the
one built for the type code `mysql.TypeString`; a String node likewise never fails and
keeps the payload verbatim as a string-kind value, whose type is the one built for the
variable-length string type code `mysql.TypeVarString`. -/
theorem PBToExpr_Bytes_String (E : Env) (Val : Bytes) (ch : List Expr)
    (sg : ScalarFuncSig) (ft : Option PbFieldType) (tps : List (Option FieldType))
    (sc : StatementContext) :
    PBToExpr E (.mk .Bytes Val ch sg ft) tps sc
      = .ok (.Constant (.Bytes Val) (some (E.NewFieldType E.TypeString)))
    ∧ PBToExpr E (.mk .String Val ch sg ft) tps sc
      = .ok (.Constant (.String Val) (some (E.NewFieldType E.TypeVarString)))
    ∧ convertString E Val
      = .ok (.Constant (.String Val) (some (E.NewFieldType E.TypeVarString))) := by
  refine ⟨?_, ?_, rfl⟩
  · simp only [PBToExpr]
  · simp only [PBToExpr, convertString]

/-- Claim C19, the code at the failing input: a Duration node with the malformed
payload `01 02 03` yields the error "invalid duration 0", which carries the integer
left by the failed decoding and not the payload, while the Int64 converter reports the
same payload in its error. -/
theorem convertDuration_error_drops_payload :
    convertDuration sampleEnv [1, 2, 3] = .error (.invalidDuration 0)
    ∧ PBToExpr sampleEnv (.mk .MysqlDuration [1, 2, 3] [] (.unlisted 0) none) [] sampleSc
      = .error (.invalidDuration 0)
    ∧ convertDuration sampleEnv [4, 5] = .error (.invalidDuration 0)
    ∧ convertInt sampleEnv [1, 2, 3] = .error (.invalidInt [1, 2, 3]) :=
  ⟨rfl, rfl, rfl, rfl⟩

theorem loop_contributions (E : Env) (tps : List (Option FieldType))
    (sc : StatementContext) (children : List Expr) (contribs : List (List Expression))
    (h : List.Forall₂ (Contribution E tps sc) children contribs) :
    ∀ args, PBToExpr.loop E children tps sc args = .args (args ++ contribs.flatten) := by
  induction h with
  | nil => intro args; simp [PBToExpr.loop]
  | @cons child l rest ls hc _ ih =>
    intro args
    rw [PBToExpr.loop]
    unfold Contribution at hc
    by_cases hk : child.Tp = ExprType.ValueList
    · rw [if_pos hk] at hc
      obtain ⟨hd, hne⟩ := hc
      rw [if_pos hk, hd]
      have hlen : ¬ l.length = 0 := by
        intro h0
        exact hne (List.length_eq_zero.mp h0)
      simp only [hlen, if_false]
      rw [ih]
      simp
    · rw [if_neg hk] at hc
      obtain ⟨e, he, hl⟩ := hc
      rw [if_neg hk, he]
      simp only []
      rw [ih, hl]
      simp

/-- Claim C18: for a function node with a supported signature whose children all decode
and whose value-list children are all non-empty, `PBToExpr` returns a function call
whose argument list is the concatenation, in child order, of the contributions of the
children: the single expression of a child that is not a value list, and the constants
of a value-list child spliced in place. -/
theorem PBToExpr_ScalarFunc_args (E : Env) (Val : Bytes) (Children : List Expr)
    (Sig : ScalarFuncSig) (t : PbFieldType) (tps : List (Option FieldType))
    (sc : StatementContext) (contribs : List (List Expression))
    (hsig : ∀ n, Sig ≠ ScalarFuncSig.unlisted n)
    (h : List.Forall₂ (Contribution E tps sc) Children contribs) :
    ∃ f, PBToExpr E (.mk .ScalarFunc Val Children Sig (some t)) tps sc
        = .ok (.ScalarFunction ("sig_" ++ f.sig.typeName) f (some (PbTypeToFieldType E t)))
      ∧ f.getArgs = contribs.flatten
      ∧ f.PbCode = Sig
      ∧ Sig.operator = some f.sig.operator ∧ Sig.argType = f.sig.argType := by
  obtain ⟨v, hv, -, hop, hty⟩ :=
    getSignatureByPB_listed E ⟨sc⟩ t contribs.flatten Sig hsig
  refine ⟨.mk v (.mk contribs.flatten ⟨sc⟩ (some (PbTypeToFieldType E t)) Sig),
    ?_, rfl, rfl, hop, hty⟩
  rw [PBToExpr_ScalarFunc, loop_contributions E tps sc Children contribs h []]
  simp only [newDistSQLFunctionBySig, List.nil_append, hv]
  rfl

theorem PBToExpr_ScalarFunc_args_witness :
    (∃ f, PBToExpr sampleEnv
          (.mk .ScalarFunc []
            [.mk .Int64 (EncodeInt 5) [] (.unlisted 0) none,
             .mk .Int64 (EncodeInt 7) [] (.unlisted 0) none] .LTInt (some samplePbType))
          [] sampleSc
        = .ok (.ScalarFunction ("sig_" ++ f.sig.typeName) f
            (some (PbTypeToFieldType sampleEnv samplePbType)))
      ∧ f.getArgs = [.Constant (.Int64 5) (some (sampleEnv.NewFieldType 8)),
                     .Constant (.Int64 7) (some (sampleEnv.NewFieldType 8))]
      ∧ f.PbCode = .LTInt
      ∧ ScalarFuncSig.LTInt.operator = some f.sig.operator
      ∧ ScalarFuncSig.LTInt.argType = f.sig.argType)
    ∧ (∃ f, PBToExpr sampleCodecEnv
          (.mk .ScalarFunc []
            [.mk .Int64 (EncodeInt 5) [] (.unlisted 0) none,
             .mk .ValueList (3 :: EncodeInt 7 ++ 3 :: EncodeInt 9) [] (.unlisted 0) none]
            .InInt (some samplePbType))
          [] sampleSc
        = .ok (.ScalarFunction ("sig_" ++ f.sig.typeName) f
            (some (PbTypeToFieldType sampleCodecEnv samplePbType)))
      ∧ f.getArgs = [.Constant (.Int64 5) (some (sampleCodecEnv.NewFieldType 8)),
                     .Constant (.Int64 7) none, .Constant (.Int64 9) none]
      ∧ f.PbCode = .InInt
      ∧ ScalarFuncSig.InInt.operator = some f.sig.operator
      ∧ ScalarFuncSig.InInt.argType = f.sig.argType) :=
  ⟨PBToExpr_ScalarFunc_args sampleEnv []
      [.mk .Int64 (EncodeInt 5) [] (.unlisted 0) none,
       .mk .Int64 (EncodeInt 7) [] (.unlisted 0) none] .LTInt samplePbType [] sampleSc
      [[.Constant (.Int64 5) (some (sampleEnv.NewFieldType 8))],
       [.Constant (.Int64 7) (some (sampleEnv.NewFieldType 8))]]
      (fun _ h => ScalarFuncSig.noConfusion h)
      (List.Forall₂.cons
        (by unfold Contribution; rw [if_neg (by simp [Expr.Tp])]; exact ⟨_, rfl, rfl⟩)
        (List.Forall₂.cons
          (by unfold Contribution; rw [if_neg (by simp [Expr.Tp])]; exact ⟨_, rfl, rfl⟩)
          List.Forall₂.nil)),
   PBToExpr_ScalarFunc_args sampleCodecEnv []
      [.mk .Int64 (EncodeInt 5) [] (.unlisted 0) none,
       .mk .ValueList (3 :: EncodeInt 7 ++ 3 :: EncodeInt 9) [] (.unlisted 0) none]
      .InInt samplePbType [] sampleSc
      [[.Constant (.Int64 5) (some (sampleCodecEnv.NewFieldType 8))],
       [.Constant (.Int64 7) none, .Constant (.Int64 9) none]]
      (fun _ h => ScalarFuncSig.noConfusion h)
      (List.Forall₂.cons
        (by unfold Contribution; rw [if_neg (by simp [Expr.Tp])]; exact ⟨_, rfl, rfl⟩)
        (List.Forall₂.cons
          (by unfold Contribution; rw [if_pos (by simp [Expr.Tp])]; exact ⟨rfl, by simp⟩)
          List.Forall₂.nil))⟩

theorem PBToExprFuel_succ (E : Env) (fuel : Nat) (Tp : ExprType) (Val : Bytes)
    (Children : List Expr) (Sig : ScalarFuncSig) (ft : Option PbFieldType)
    (tps : List (Option FieldType)) (sc : StatementContext) :
    PBToExprFuel E (fuel + 1) (.mk Tp Val Children Sig ft) tps sc =
      if Tp = ExprType.ScalarFunc then
        match PBToExprFuel.loop E fuel Children tps sc [] 1 with
        | none => none
        | some (.returned o, calls) => some (o, calls)
        | some (.args args, calls) =>
          some (newDistSQLFunctionBySig E sc Sig ft args, calls)
      else some (PBToExpr E (.mk Tp Val Children Sig ft) tps sc, 1) := by
  rw [PBToExprFuel]

mutual
theorem PBToExprFuel_spec (E : Env) (tps : List (Option FieldType))
    (sc : StatementContext) :
    ∀ (e : Expr) (n : Nat), ∃ c,
      PBToExprFuel E (e.visitDepth + n) e tps sc = some (PBToExpr E e tps sc, c)
        ∧ c ≤ e.size
  | .mk Tp Val Children Sig ft, n => by
    by_cases hT : Tp = ExprType.ScalarFunc
    · subst hT
      obtain ⟨c, hc, hle⟩ := PBToExprFuel_loop_spec E tps sc Children
        (Expr.visitDepthList Children + n) [] 1 (by omega)
      have hfuel : (Expr.mk ExprType.ScalarFunc Val Children Sig ft).visitDepth + n
          = (Expr.visitDepthList Children + n) + 1 := by
        simp only [Expr.visitDepth, if_true]; omega
      refine ⟨1 + c, ?_, ?_⟩
      · rw [hfuel, PBToExprFuel_succ, if_pos rfl, hc, PBToExpr_ScalarFunc]
        cases PBToExpr.loop E Children tps sc [] <;> rfl
      · simp only [Expr.size]; omega
    · have hfuel : (Expr.mk Tp Val Children Sig ft).visitDepth + n = n + 1 := by
        simp only [Expr.visitDepth, if_neg hT]; omega
      refine ⟨1, ?_, ?_⟩
      · rw [hfuel, PBToExprFuel_succ, if_neg hT]
      · simp only [Expr.size]; omega
theorem PBToExprFuel_loop_spec (E : Env) (tps : List (Option FieldType))
    (sc : StatementContext) :
    ∀ (children : List Expr) (fuel : Nat) (args : List Expression) (calls : Nat),
      Expr.visitDepthList children ≤ fuel →
      ∃ c, PBToExprFuel.loop E fuel children tps sc args calls
          = some (PBToExpr.loop E children tps sc args, calls + c)
        ∧ c ≤ Expr.sizeList children
  | [], fuel, args, calls, _ => ⟨0, by simp [PBToExprFuel.loop, PBToExpr.loop], by simp⟩
  | child :: rest, fuel, args, calls, h => by
    have hrest : Expr.visitDepthList rest ≤ fuel := by
      simp only [Expr.visitDepthList] at h; omega
    rw [PBToExprFuel.loop, PBToExpr.loop]
    by_cases hk : child.Tp = ExprType.ValueList
    · simp only [if_pos hk]
      cases hd : decodeValueList E child.Val with
      | error err => exact ⟨0, by simp, by omega⟩
      | panic p => exact ⟨0, by simp, by omega⟩
      | ok results =>
        by_cases h0 : results.length = 0
        · simp only [if_pos h0]
          exact ⟨0, by simp, by omega⟩
        · simp only [if_neg h0]
          obtain ⟨c, hc, hle⟩ :=
            PBToExprFuel_loop_spec E tps sc rest fuel (args ++ results) calls hrest
          exact ⟨c, hc, by simp only [Expr.sizeList]; omega⟩
    · simp only [if_neg hk]
      have hchild : child.visitDepth ≤ fuel := by
        simp only [Expr.visitDepthList, if_neg hk] at h; omega
      obtain ⟨c₁, hc₁, hle₁⟩ := PBToExprFuel_spec E tps sc child (fuel - child.visitDepth)
      rw [show child.visitDepth + (fuel - child.visitDepth) = fuel by omega] at hc₁
      rw [hc₁]
      cases hd : PBToExpr E child tps sc with
      | error err => exact ⟨c₁, by simp, by simp only [Expr.sizeList]; omega⟩
      | panic p => exact ⟨c₁, by simp, by simp only [Expr.sizeList]; omega⟩
      | ok arg =>
        simp only []
        obtain ⟨c, hc, hle⟩ :=
          PBToExprFuel_loop_spec E tps sc rest fuel (args ++ [arg]) (calls + c₁) hrest
        exact ⟨c₁ + c, by rw [hc, Nat.add_assoc], by simp only [Expr.sizeList]; omega⟩
end

mutual
theorem visitDepth_le_depth : ∀ e : Expr, e.visitDepth ≤ e.depth
  | .mk Tp Val Children Sig ft => by
    have h := visitDepthList_le_depthList Children
    simp only [Expr.visitDepth, Expr.depth]
    split <;> omega
theorem visitDepthList_le_depthList :
    ∀ l : List Expr, Expr.visitDepthList l ≤ Expr.depthList l
  | [] => by simp [Expr.visitDepthList, Expr.depthList]
  | child :: rest => by
    have h₁ := visitDepth_le_depth child
    have h₂ := visitDepthList_le_depthList rest
    simp only [Expr.visitDepthList, Expr.depthList]
    split <;> omega
end

theorem PBToExpr_leaf_children (E : Env) (Tp : ExprType) (Val : Bytes)
    (ch ch2 : List Expr) (sg sg2 : ScalarFuncSig) (ft : Option PbFieldType)
    (tps : List (Option FieldType)) (sc : StatementContext)
    (hT : Tp ≠ ExprType.ScalarFunc) :
    PBToExpr E (.mk Tp Val ch sg ft) tps sc = PBToExpr E (.mk Tp Val ch2 sg2 ft) tps sc := by
  cases Tp <;> first | (exact absurd rfl hT) | simp [PBToExpr]

theorem loop_ValueList_child (E : Env) (Val : Bytes) (ch ch2 : List Expr)
    (sg sg2 : ScalarFuncSig) (ft ft2 : Option PbFieldType) (rest : List Expr)
    (tps : List (Option FieldType)) (sc : StatementContext) (args : List Expression) :
    PBToExpr.loop E (.mk .ValueList Val ch sg ft :: rest) tps sc args
      = PBToExpr.loop E (.mk .ValueList Val ch2 sg2 ft2 :: rest) tps sc args := by
  rw [PBToExpr.loop, PBToExpr.loop]
  simp [Expr.Tp, Expr.Val]

/-- Claim C20: `PBToExpr` is total by structural recursion on the tree, and it recurses
only into the children of a function node that are not value lists, once per child: run
with a bound on the depth of nested calls equal to the nesting depth of the tree (or
only to the depth counted through function nodes and children that are not value
lists), it returns the result of `PBToExpr`, having made no more calls than the tree
has nodes; the children of a node of a leaf kind and all that lies in a value-list
child have no influence on the result. -/
theorem PBToExpr_recursion_depth (E : Env) (tps : List (Option FieldType))
    (sc : StatementContext) (e : Expr) (n : Nat) :
    (∃ c, PBToExprFuel E (e.depth + n) e tps sc = some (PBToExpr E e tps sc, c)
      ∧ c ≤ e.size)
    ∧ (∃ c, PBToExprFuel E (e.visitDepth + n) e tps sc = some (PBToExpr E e tps sc, c)
      ∧ c ≤ e.size)
    ∧ e.visitDepth ≤ e.depth
    ∧ (∀ Tp Val ch ch2 sg sg2 ft, Tp ≠ ExprType.ScalarFunc →
        PBToExpr E (.mk Tp Val ch sg ft) tps sc = PBToExpr E (.mk Tp Val ch2 sg2 ft) tps sc)
    ∧ (∀ Val ch ch2 sg sg2 ft ft2 rest args,
        PBToExpr.loop E (.mk .ValueList Val ch sg ft :: rest) tps sc args
          = PBToExpr.loop E (.mk .ValueList Val ch2 sg2 ft2 :: rest) tps sc args) := by
  have hle := visitDepth_le_depth e
  refine ⟨?_, PBToExprFuel_spec E tps sc e n, hle, ?_, ?_⟩
  · have h := PBToExprFuel_spec E tps sc e (e.depth - e.visitDepth + n)
    rw [show e.visitDepth + (e.depth - e.visitDepth + n) = e.depth + n by omega] at h
    exact h
  · intro Tp Val ch ch2 sg sg2 ft hT
    exact PBToExpr_leaf_children E Tp Val ch ch2 sg sg2 ft tps sc hT
  · intro Val ch ch2 sg sg2 ft ft2 rest args
    exact loop_ValueList_child E Val ch ch2 sg sg2 ft ft2 rest tps sc args

theorem PBToExpr_recursion_depth_witness :
    sampleDeepTree.depth = 4
    ∧ sampleDeepTree.visitDepth = 2
    ∧ PBToExprFuel sampleCodecEnv 2 sampleDeepTree [] sampleSc
        = some (PBToExpr sampleCodecEnv sampleDeepTree [] sampleSc, 2)
    ∧ PBToExprFuel sampleCodecEnv 1 sampleDeepTree [] sampleSc = none
    ∧ sampleDeepTree.visitDepth ≤ sampleDeepTree.depth :=
  ⟨rfl, rfl, rfl, rfl,
   (PBToExpr_recursion_depth sampleCodecEnv [] sampleSc sampleDeepTree 0).2.2.1⟩

theorem loop_empty_ValueList (E : Env) (tps : List (Option FieldType))
    (sc : StatementContext) (vl : Expr) (post : List Expr)
    (hTp : vl.Tp = ExprType.ValueList) (hdec : decodeValueList E vl.Val = .ok [])
    (pre : List Expr) :
    ∀ args, (∀ child ∈ pre, Decodes E tps sc child) →
      PBToExpr.loop E (pre ++ vl :: post) tps sc args
        = .returned (.ok (.Constant (NewDatum false)
            (some (E.NewFieldType E.TypeLonglong)))) := by
  induction pre with
  | nil =>
    intro args _
    rw [List.nil_append, PBToExpr.loop, if_pos hTp, hdec]
    simp
  | cons hd tl ih =>
    intro args hpre
    have hhd := hpre hd (List.mem_cons_self _ _)
    have htl : ∀ child ∈ tl, Decodes E tps sc child :=
      fun c hc => hpre c (List.mem_cons_of_mem _ hc)
    unfold Decodes at hhd
    rw [List.cons_append, PBToExpr.loop]
    by_cases hk : hd.Tp = ExprType.ValueList
    · rw [if_pos hk] at hhd
      obtain ⟨l, hl⟩ := hhd
      rw [if_pos hk, hl]
      by_cases h0 : l.length = 0
      · simp [h0]
      · simp only [h0, if_false]
        exact ih _ htl
    · rw [if_neg hk] at hhd
      obtain ⟨e, he⟩ := hhd
      rw [if_neg hk, he]
      exact ih _ htl

/-- Claim C21: when `PBToExpr` processes a function node and reaches a value-list child
that decodes to zero elements, all earlier children having decoded, the result of the
whole node is the bare constant false of type Longlong with no error, whatever the
signature code, the result type descriptor, the arguments already built and the later
children are. -/
theorem PBToExpr_empty_ValueList_early_return (E : Env) (Val : Bytes)
    (pre : List Expr) (vl : Expr) (post : List Expr) (Sig : ScalarFuncSig)
    (ft : Option PbFieldType) (tps : List (Option FieldType)) (sc : StatementContext)
    (hTp : vl.Tp = ExprType.ValueList) (hdec : decodeValueList E vl.Val = .ok [])
    (hpre : ∀ child ∈ pre, Decodes E tps sc child) :
    PBToExpr E (.mk .ScalarFunc Val (pre ++ vl :: post) Sig ft) tps sc
        = .ok (.Constant (NewDatum false) (some (E.NewFieldType E.TypeLonglong)))
    ∧ ∀ args, PBToExpr.loop E (pre ++ vl :: post) tps sc args
        = .returned (.ok (.Constant (NewDatum false)
            (some (E.NewFieldType E.TypeLonglong)))) := by
  have h := loop_empty_ValueList E tps sc vl post hTp hdec pre
  refine ⟨?_, fun args => h args hpre⟩
  rw [PBToExpr_ScalarFunc, h [] hpre]

theorem PBToExpr_empty_ValueList_early_return_witness :
    PBToExpr sampleCodecEnv (.mk .Int64 [1, 2, 3] [] (.unlisted 0) none) [] sampleSc
        = .error (.invalidInt [1, 2, 3])
    ∧ PBToExpr sampleCodecEnv sampleEarlyReturnTree [] sampleSc
        = .ok (.Constant (.Int64 0) (some (sampleCodecEnv.NewFieldType 8))) :=
  ⟨rfl,
   (PBToExpr_empty_ValueList_early_return sampleCodecEnv []
      [.mk .Int64 (EncodeInt 5) [] (.unlisted 0) none,
       .mk .ValueList (3 :: EncodeInt 7) [] (.unlisted 0) none]
      (.mk .ValueList [] [] (.unlisted 0) none)
      [.mk .Int64 [1, 2, 3] [] (.unlisted 0) none,
       .mk (.unlisted 9999) [] [] (.unlisted 0) none]
      (.unlisted 9999) none [] sampleSc rfl rfl
      (by
        intro child hc
        simp only [List.mem_cons, List.mem_singleton, List.not_mem_nil, or_false] at hc
        rcases hc with rfl | rfl
        · unfold Decodes; rw [if_neg (by simp [Expr.Tp])]; exact ⟨_, rfl⟩
        · unfold Decodes; rw [if_pos (by simp [Expr.Tp])]; exact ⟨_, rfl⟩)).1⟩

theorem foldl_append_Constant (list : List Datum) :
    ∀ acc : List Expression,
      list.foldl (fun result value => result ++ [Expression.Constant value none]) acc
        = acc ++ list.map (fun value => Expression.Constant value none) := by
  induction list with
  | nil => intro acc; simp
  | cons v vs ih => intro acc; simp [ih]

/-- Claim C22: `decodeValueList` returns the empty list without error for an empty
payload; for a payload the value decoder accepts, the list of constants of the decoded
values, of the same length and in the same order, each carrying no result type; and
for a payload the decoder rejects, that error and no list. Every constant built for a
node of a leaf kind does carry a result type. -/
theorem decodeValueList_spec (E : Env) (data : Bytes) (list : List Datum)
    (err : Option Error) (hdec : E.Decode data 1 = (list, err)) :
    decodeValueList E [] = .ok []
    ∧ (data ≠ [] → err = none →
        decodeValueList E data = .ok (list.map (fun value => Expression.Constant value none))
        ∧ (list.map (fun value => Expression.Constant value none)).length = list.length)
    ∧ (data ≠ [] → ∀ e, err = some e → decodeValueList E data = .error e)
    ∧ (∀ Tp Val ch sg ft tps sc v rt, Tp ≠ ExprType.ScalarFunc →
        PBToExpr E (.mk Tp Val ch sg ft) tps sc = .ok (.Constant v rt) → rt ≠ none) := by
  refine ⟨rfl, ?_, ?_, ?_⟩
  · intro hne herr
    subst herr
    have hlen : ¬ data.length = 0 := fun h => hne (List.length_eq_zero.mp h)
    simp only [decodeValueList, hlen, if_false, hdec, foldl_append_Constant,
      List.nil_append, List.length_map, and_self]
  · intro hne e herr
    subst herr
    have hlen : ¬ data.length = 0 := fun h => hne (List.length_eq_zero.mp h)
    simp only [decodeValueList, hlen, if_false, hdec]
  · intro Tp Val ch sg ft tps sc v rt hT h
    cases Tp
    case ScalarFunc => exact absurd rfl hT
    case ColumnRef =>
      rw [PBToExpr_ColumnRef] at h
      split at h
      · cases h
      · split at h <;> cases h
    case Null => simp only [PBToExpr] at h; cases h; simp
    case Int64 =>
      simp only [PBToExpr, convertInt] at h
      split at h <;> cases h
      simp
    case Uint64 =>
      simp only [PBToExpr, convertUint] at h
      split at h <;> cases h
      simp
    case String => simp only [PBToExpr, convertString] at h; cases h; simp
    case Bytes => simp only [PBToExpr] at h; cases h; simp
    case Float32 =>
      simp only [PBToExpr, convertFloat] at h
      split at h <;> cases h
      simp
    case Float64 =>
      simp only [PBToExpr, convertFloat] at h
      split at h <;> cases h
      simp
    case MysqlDecimal =>
      simp only [PBToExpr, convertDecimal] at h
      split at h <;> cases h
      simp
    case MysqlDuration =>
      simp only [PBToExpr, convertDuration] at h
      split at h <;> cases h
      simp
    case MysqlTime =>
      simp only [PBToExpr, convertTime] at h
      split at h
      · cases h
      · split at h
        · cases h
        · split at h
          · cases h
          · split at h
            · split at h <;> cases h
              simp
            · cases h
              simp
    case ValueList => simp [PBToExpr] at h
    case unlisted c => simp [PBToExpr] at h

theorem decodeValueList_spec_witness :
    decodeValueList sampleCodecEnv (3 :: EncodeInt 7 ++ 3 :: EncodeInt 9)
        = .ok [.Constant (.Int64 7) none, .Constant (.Int64 9) none]
    ∧ decodeValueList sampleCodecEnv [9]
        = .error (.library "invalid encoded key") :=
  ⟨((decodeValueList_spec sampleCodecEnv (3 :: EncodeInt 7 ++ 3 :: EncodeInt 9)
      [.Int64 7, .Int64 9] none rfl).2.1 (by simp) rfl).1,
   (decodeValueList_spec sampleCodecEnv [9] [] (some (.library "invalid encoded key"))
      rfl).2.2.1 (by simp) _ rfl⟩

theorem sliceIndex_of_getElem? {α : Type} (xs : List α) (i : Nat) (x : α)
    (h : xs[i]? = some x) : sliceIndex xs i = .ok x := by
  simp [sliceIndex, h]

theorem builtinIfVec_body_fixed {α : Type} [Inhabited α] (buf0 : Column Int)
    (buf1 buf2 result : Column α) (i n : Nat) (hi : i < n)
    (h0n : buf0.nulls.length = n) (h0d : buf0.data.length = n)
    (h2n : buf2.nulls.length = n) (h2d : buf2.data.length = n)
    (hrn : result.nulls.length = n) (hrd : result.data.length = n) :
    ∃ r, builtinIfVec.body true buf0 buf1 buf2 i result = .ok r
      ∧ r.nulls.length = n ∧ r.data.length = n
      ∧ r.row i = (match buf0.row i with
          | none => buf2.row i
          | some arg => if arg = 0 then buf2.row i else result.row i)
      ∧ ∀ j, j ≠ i → r.row j = result.row j := by
  obtain ⟨a, ha⟩ : ∃ a, buf0.data[i]? = some a :=
    ⟨_, List.getElem?_eq_getElem (by omega)⟩
  obtain ⟨b0, hb0⟩ : ∃ b, buf0.nulls[i]? = some b :=
    ⟨_, List.getElem?_eq_getElem (by omega)⟩
  obtain ⟨b2, hb2⟩ : ∃ b, buf2.nulls[i]? = some b :=
    ⟨_, List.getElem?_eq_getElem (by omega)⟩
  obtain ⟨v2, hv2⟩ : ∃ v, buf2.data[i]? = some v :=
    ⟨_, List.getElem?_eq_getElem (by omega)⟩
  have hin : i < result.nulls.length := by omega
  have hid : i < result.data.length := by omega
  have hbody : builtinIfVec.body true buf0 buf1 buf2 i result =
      if b0 = true ∨ a = 0 then
        if b2 = true then
          Outcome.ok { nulls := result.nulls.set i true, data := result.data }
        else Outcome.ok { nulls := result.nulls.set i false, data := result.data.set i v2 }
      else Outcome.ok result := by
    simp only [builtinIfVec.body, Column.IsNull, sliceIndex_of_getElem? _ _ _ ha,
      sliceIndex_of_getElem? _ _ _ hb0, sliceIndex_of_getElem? _ _ _ hb2,
      sliceIndex_of_getElem? _ _ _ hv2, Outcome.bind, Column.SetNull, Column.assign,
      if_true, hin, hid]
    by_cases hc : b0 = true ∨ a = 0
    · cases b2 <;> simp [hc, hid]
    · have ha0 : a ≠ 0 := fun h => hc (Or.inr h)
      simp [hc, ha0]
  rw [hbody]
  by_cases hc : b0 = true ∨ a = 0
  · have hres : (match buf0.row i with
        | none => buf2.row i
        | some arg => if arg = 0 then buf2.row i else result.row i) = buf2.row i := by
      cases b0 <;> simp_all [Column.row]
    rw [hres, if_pos hc]
    cases b2
    · refine ⟨_, rfl, by simp [hrn], by simp [hrd], ?_, ?_⟩
      · simp [Column.row, hin, hid, hb2, hv2]
      · intro j hj
        simp [Column.row, List.getElem?_set_ne (Ne.symm hj)]
    · refine ⟨_, rfl, by simp [hrn], by simp [hrd], ?_, ?_⟩
      · simp [Column.row, hin, hb2]
      · intro j hj
        simp [Column.row, List.getElem?_set_ne (Ne.symm hj)]
  · have hb0f : b0 = false := by
      cases b0
      · rfl
      · exact absurd (Or.inl rfl) hc
    have ha0 : a ≠ 0 := fun h => hc (Or.inr h)
    rw [if_neg hc]
    refine ⟨result, rfl, hrn, hrd, ?_, fun _ _ => rfl⟩
    subst hb0f
    simp [Column.row, hb0, ha, ha0]

theorem builtinIfVec_body_var {α : Type} [Inhabited α] (buf0 : Column Int)
    (buf1 buf2 result : Column α) (i n : Nat) (hi : i < n)
    (h0n : buf0.nulls.length = n) (h0d : buf0.data.length = n)
    (h1n : buf1.nulls.length = n) (h1d : buf1.data.length = n)
    (h2n : buf2.nulls.length = n) (h2d : buf2.data.length = n)
    (hrn : result.nulls.length = i) (hrd : result.data.length = i) :
    ∃ r, builtinIfVec.body false buf0 buf1 buf2 i result = .ok r
      ∧ r.nulls.length = i + 1 ∧ r.data.length = i + 1
      ∧ r.row i = ifRowSpec buf0 buf1 buf2 i
      ∧ ∀ j, j < i → r.row j = result.row j := by
  obtain ⟨a, ha⟩ : ∃ a, buf0.data[i]? = some a :=
    ⟨_, List.getElem?_eq_getElem (by omega)⟩
  obtain ⟨b0, hb0⟩ : ∃ b, buf0.nulls[i]? = some b :=
    ⟨_, List.getElem?_eq_getElem (by omega)⟩
  obtain ⟨b1, hb1⟩ : ∃ b, buf1.nulls[i]? = some b :=
    ⟨_, List.getElem?_eq_getElem (by omega)⟩
  obtain ⟨v1, hv1⟩ : ∃ v, buf1.data[i]? = some v :=
    ⟨_, List.getElem?_eq_getElem (by omega)⟩
  obtain ⟨b2, hb2⟩ : ∃ b, buf2.nulls[i]? = some b :=
    ⟨_, List.getElem?_eq_getElem (by omega)⟩
  obtain ⟨v2, hv2⟩ : ∃ v, buf2.data[i]? = some v :=
    ⟨_, List.getElem?_eq_getElem (by omega)⟩
  have hbody : builtinIfVec.body false buf0 buf1 buf2 i result =
      if b0 = true ∨ a = 0 then
        if b2 = true then Outcome.ok result.AppendNull else Outcome.ok (result.Append v2)
      else
        if b1 = true then Outcome.ok result.AppendNull else Outcome.ok (result.Append v1) := by
    simp only [builtinIfVec.body, Column.IsNull, Column.Get,
      sliceIndex_of_getElem? _ _ _ ha, sliceIndex_of_getElem? _ _ _ hb0,
      sliceIndex_of_getElem? _ _ _ hb1, sliceIndex_of_getElem? _ _ _ hb2,
      sliceIndex_of_getElem? _ _ _ hv1, sliceIndex_of_getElem? _ _ _ hv2, Outcome.bind]
    by_cases hc : b0 = true ∨ a = 0
    · cases b2 <;> simp [hc]
    · have ha0 : a ≠ 0 := fun h => hc (Or.inr h)
      cases b1 <;> simp [hc, ha0]
  have hnull : ∀ v : α, ({ nulls := result.nulls ++ [true], data := result.data ++ [v] }
      : Column α).row i = none := by
    intro v
    simp [Column.row, ← hrn]
  have hval : ∀ v : α, ({ nulls := result.nulls ++ [false], data := result.data ++ [v] }
      : Column α).row i = some v := by
    intro v
    have h1 : (result.nulls ++ [false])[i]? = some false := by simp [← hrn]
    have h2 : (result.data ++ [v])[i]? = some v := by simp [← hrd]
    simp [Column.row, h1, h2]
  have hold : ∀ (b : Bool) (v : α) (j : Nat), j < i →
      ({ nulls := result.nulls ++ [b], data := result.data ++ [v] } : Column α).row j
        = result.row j := by
    intro b v j hj
    have h1 : (result.nulls ++ [b])[j]? = result.nulls[j]? :=
      List.getElem?_append_left (by omega)
    have h2 : (result.data ++ [v])[j]? = result.data[j]? :=
      List.getElem?_append_left (by omega)
    simp [Column.row, h1, h2]
  rw [hbody]
  by_cases hc : b0 = true ∨ a = 0
  · have hres : ifRowSpec buf0 buf1 buf2 i = buf2.row i := by
      unfold ifRowSpec
      cases b0 <;> simp_all [Column.row]
    rw [hres, if_pos hc]
    cases b2
    · refine ⟨_, rfl, by simp [Column.Append, hrn], by simp [Column.Append, hrd], ?_, ?_⟩
      · rw [Column.Append, hval]; simp [Column.row, hb2, hv2]
      · intro j hj; rw [Column.Append, hold _ _ j hj]
    · refine ⟨_, rfl, by simp [Column.AppendNull, hrn], by simp [Column.AppendNull, hrd],
        ?_, ?_⟩
      · rw [Column.AppendNull, hnull]; simp [Column.row, hb2]
      · intro j hj; rw [Column.AppendNull, hold _ _ j hj]
  · have hb0f : b0 = false := by
      cases b0
      · rfl
      · exact absurd (Or.inl rfl) hc
    have ha0 : a ≠ 0 := fun h => hc (Or.inr h)
    have hres : ifRowSpec buf0 buf1 buf2 i = buf1.row i := by
      unfold ifRowSpec
      subst hb0f
      simp [Column.row, hb0, ha, ha0]
    rw [hres, if_neg hc]
    cases b1
    · refine ⟨_, rfl, by simp [Column.Append, hrn], by simp [Column.Append, hrd], ?_, ?_⟩
      · rw [Column.Append, hval]; simp [Column.row, hb1, hv1]
      · intro j hj; rw [Column.Append, hold _ _ j hj]
    · refine ⟨_, rfl, by simp [Column.AppendNull, hrn], by simp [Column.AppendNull, hrd],
        ?_, ?_⟩
      · rw [Column.AppendNull, hnull]; simp [Column.row, hb1]
      · intro j hj; rw [Column.AppendNull, hold _ _ j hj]

theorem builtinIfVec_loop_fixed {α : Type} [Inhabited α] (buf0 : Column Int)
    (buf1 buf2 : Column α) (n : Nat)
    (h0n : buf0.nulls.length = n) (h0d : buf0.data.length = n)
    (h2n : buf2.nulls.length = n) (h2d : buf2.data.length = n) :
    ∀ (k i : Nat) (result : Column α), i + k = n →
      result.nulls.length = n → result.data.length = n →
      ∃ r, builtinIfVec.loop true buf0 buf1 buf2 k i result = .ok r
        ∧ r.nulls.length = n ∧ r.data.length = n
        ∧ ∀ j, r.row j = if i ≤ j ∧ j < n then ifRowSpec buf0 result buf2 j
            else result.row j := by
  intro k
  induction k with
  | zero =>
    intro i result hik hrn hrd
    refine ⟨result, rfl, hrn, hrd, ?_⟩
    intro j
    have : ¬ (i ≤ j ∧ j < n) := by omega
    simp [this]
  | succ k ih =>
    intro i result hik hrn hrd
    obtain ⟨r₁, hb, h₁n, h₁d, hrow, hother⟩ :=
      builtinIfVec_body_fixed buf0 buf1 buf2 result i n (by omega) h0n h0d h2n h2d hrn hrd
    obtain ⟨r, hl, hrn2, hrd2, hrows⟩ := ih (i + 1) r₁ (by omega) h₁n h₁d
    refine ⟨r, ?_, hrn2, hrd2, ?_⟩
    · rw [builtinIfVec.loop, hb]
      exact hl
    · intro j
      rw [hrows j]
      by_cases hji : j = i
      · subst hji
        have h1 : ¬ (j + 1 ≤ j ∧ j < n) := by omega
        have h2 : j ≤ j ∧ j < n := by omega
        rw [if_neg h1, if_pos h2, hrow]
        rfl
      · by_cases hj : i + 1 ≤ j ∧ j < n
        · have h2 : i ≤ j ∧ j < n := by omega
          rw [if_pos hj, if_pos h2]
          unfold ifRowSpec
          rw [hother j hji]
        · have h2 : ¬ (i ≤ j ∧ j < n) := by omega
          rw [if_neg hj, if_neg h2, hother j hji]

theorem builtinIfVec_loop_var {α : Type} [Inhabited α] (buf0 : Column Int)
    (buf1 buf2 : Column α) (n : Nat)
    (h0n : buf0.nulls.length = n) (h0d : buf0.data.length = n)
    (h1n : buf1.nulls.length = n) (h1d : buf1.data.length = n)
    (h2n : buf2.nulls.length = n) (h2d : buf2.data.length = n) :
    ∀ (k i : Nat) (result : Column α), i + k = n →
      result.nulls.length = i → result.data.length = i →
      ∃ r, builtinIfVec.loop false buf0 buf1 buf2 k i result = .ok r
        ∧ r.nulls.length = n ∧ r.data.length = n
        ∧ ∀ j, j < n → r.row j = if j < i then result.row j
            else ifRowSpec buf0 buf1 buf2 j := by
  intro k
  induction k with
  | zero =>
    intro i result hik hrn hrd
    refine ⟨result, rfl, by omega, by omega, ?_⟩
    intro j hj
    have : j < i := by omega
    simp [this]
  | succ k ih =>
    intro i result hik hrn hrd
    obtain ⟨r₁, hb, h₁n, h₁d, hrow, hother⟩ :=
      builtinIfVec_body_var buf0 buf1 buf2 result i n (by omega) h0n h0d h1n h1d h2n h2d
        hrn hrd
    obtain ⟨r, hl, hrn2, hrd2, hrows⟩ := ih (i + 1) r₁ (by omega) h₁n h₁d
    refine ⟨r, ?_, hrn2, hrd2, ?_⟩
    · rw [builtinIfVec.loop, hb]
      exact hl
    · intro j hj
      rw [hrows j hj]
      by_cases hji : j < i
      · have h1 : j < i + 1 := by omega
        rw [if_pos h1, if_pos hji, hother j hji]
      · by_cases hje : j = i
        · subst hje
          have h1 : j < j + 1 := by omega
          rw [if_pos h1, if_neg hji, hrow]
        · have h1 : ¬ j < i + 1 := by omega
          rw [if_neg h1, if_neg hji]

/-- Claim C23: on an input of `n` rows whose three arguments evaluate to columns of `n`
rows, the fixed-width variant of the generated IF, which evaluates the second argument
into the result and overwrites rows in place, and the variable-width variant, which
appends row by row, both return a column of exactly `n` rows with the same rows: row `i`
is the row `i` of the third argument (null when that is null) if the condition is null
or 0, and the row `i` of the second argument (null when that is null) otherwise. -/
theorem builtinIfVec_variants_agree {α : Type} [Inhabited α] (n : Nat)
    (cond : Column Int) (second third : Column α) (get1 : Option Error)
    (resultFixed resultVar : Column α)
    (h0n : cond.nulls.length = n) (h0d : cond.data.length = n)
    (h1n : second.nulls.length = n) (h1d : second.data.length = n)
    (h2n : third.nulls.length = n) (h2d : third.data.length = n) :
    ∃ rf rv,
      builtinIfVec true n none (.ok cond) get1 (.ok second) none (.ok third) resultFixed
        = .ok rf
      ∧ builtinIfVec false n none (.ok cond) none (.ok second) none (.ok third) resultVar
        = .ok rv
      ∧ rf.rows = rv.rows
      ∧ rf.rows.length = n ∧ rv.rows.length = n
      ∧ rf.nulls.length = n ∧ rf.data.length = n
      ∧ rv.nulls.length = n ∧ rv.data.length = n
      ∧ ∀ i, i < n → rf.row i = ifRowSpec cond second third i
          ∧ rv.row i = ifRowSpec cond second third i := by
  obtain ⟨rf, hf, hfn, hfd, hfrow⟩ :=
    builtinIfVec_loop_fixed cond second third n h0n h0d h2n h2d n 0 second (by omega)
      h1n h1d
  obtain ⟨rv, hv, hvn, hvd, hvrow⟩ :=
    builtinIfVec_loop_var cond second third n h0n h0d h1n h1d h2n h2d n 0
      (resultVar.Reserve n) (by omega) rfl rfl
  have hrows : ∀ i, i < n → rf.row i = ifRowSpec cond second third i
      ∧ rv.row i = ifRowSpec cond second third i := by
    intro i hi
    constructor
    · rw [hfrow i, if_pos ⟨Nat.zero_le i, hi⟩]
    · rw [hvrow i hi, if_neg (Nat.not_lt_zero i)]
  refine ⟨rf, rv, ?_, ?_, ?_, by simp [Column.rows, hfn], by simp [Column.rows, hvn],
    hfn, hfd, hvn, hvd, hrows⟩
  · simp only [builtinIfVec, Outcome.bind, if_true]
    exact hf
  · simp only [builtinIfVec, Outcome.bind]
    exact hv
  · unfold Column.rows
    rw [hfn, hvn]
    apply List.map_congr_left
    intro i hi
    have hi2 : i < n := List.mem_range.mp hi
    rw [(hrows i hi2).1, (hrows i hi2).2]

theorem builtinIfVec_variants_agree_witness :
    builtinIfVec true 4 none (.ok sampleCond) none (.ok sampleSecond) none
        (.ok sampleThird) ⟨[], []⟩
      = .ok { nulls := [false, true, false, true], data := [10, 20, 300, 40] }
    ∧ builtinIfVec false 4 none (.ok sampleCond) none (.ok sampleSecond) none
        (.ok sampleThird) ⟨[true], [3]⟩
      = .ok { nulls := [false, true, false, true], data := [10, 0, 300, 0] }
    ∧ (List.range 4).map (ifRowSpec sampleCond sampleSecond sampleThird)
      = [some 10, none, some 300, none]
    ∧ ∃ rf rv,
      builtinIfVec true 4 none (.ok sampleCond) none (.ok sampleSecond) none
          (.ok sampleThird) ⟨[], []⟩ = .ok rf
      ∧ builtinIfVec false 4 none (.ok sampleCond) none (.ok sampleSecond) none
          (.ok sampleThird) ⟨[true], [3]⟩ = .ok rv
      ∧ rf.rows = rv.rows
      ∧ rf.rows.length = 4 ∧ rv.rows.length = 4
      ∧ rf.nulls.length = 4 ∧ rf.data.length = 4
      ∧ rv.nulls.length = 4 ∧ rv.data.length = 4
      ∧ ∀ i, i < 4 → rf.row i = ifRowSpec sampleCond sampleSecond sampleThird i
          ∧ rv.row i = ifRowSpec sampleCond sampleSecond sampleThird i :=
  ⟨rfl, rfl, rfl,
   builtinIfVec_variants_agree 4 sampleCond sampleSecond sampleThird none ⟨[], []⟩
     ⟨[true], [3]⟩ rfl rfl rfl rfl rfl rfl⟩

end TinySQL
